import Mathlib

/-!
Verification development for the resolution engine of mozilla/metric-config-parser.

The Python sources under `metric_config_parser/` (metric.py, data_source.py,
experiment.py, config.py, util.py, function.py) and the near-duplicate
`jetstream_config_parser/` modules (statistic.py, pre_treatment.py, errors.py)
are shallowly embedded below.  Conventions of the embedding:

* Python `attrs` record classes become Lean structures; in-place mutation
  (`merge`, attribute assignment during `resolve`) becomes explicit
  state passing: the mutating operation returns the updated value.
* Python `Optional[T]` becomes `Option T`; Python truthiness (`x or y`
  treating `None`, `""`, `0`, `[]`, `{}`, `False` as unset) is captured by
  explicit `pyOr…` helpers, one per field shape.
* Python exceptions become `Except Err`; the distinct exception classes
  raised by the engine are the constructors of `Err`.
* Python `dict`s (insertion ordered) become association lists
  `List (String × α)`; `dict[k]` is `List.lookup k`.
* Strings templated by `str.format` (the `{dataset}` placeholder of a
  data source's `from_expression`) are embedded as lists of pieces
  (literal text / placeholder); literal pieces contain no brace
  characters, so Python-level string identity is piece-list identity.
* Jinja2 select-expression templates are embedded as lists of pieces:
  literal text or a `parameters.<name>` interpolation point.  Rendering
  with `StrictUndefined` fails on an interpolation point that has no
  binding.  Registry function calls are not embedded (no claim uses
  them).  Literal pieces are non-empty, so Python falsiness of the
  template string coincides with emptiness of the piece list.
* Unbounded recursion in `MetricDefinition.resolve` (a catalog definition
  may refer back to itself) is embedded with a fuel parameter; running
  out of fuel models Python's `RecursionError`.
* `datetime` values are carried as their `"YYYY-MM-DD"` strings.
-/

deriving instance DecidableEq for Except

/-- Opaque parameter values occurring in a statistic's parameter blob
(Python `Dict[str, Any]` values). -/
inductive Val
  | str (s : String)
  | int (n : Int)
  | bool (b : Bool)
  deriving DecidableEq, Repr

/-- The engine's error kinds: `DefinitionNotFound` (errors.py),
`ValueError` / `TypeError` raised by validators and `resolve`,
`NoStartDateException`, and Python's `RecursionError` for unbounded
definition recursion (modelled by fuel exhaustion). -/
inductive Err
  | definitionNotFound (message : String)
  | valueError (message : String)
  | typeError (message : String)
  | noStartDate (slug : String)
  | recursionError
  deriving DecidableEq, Repr

/-- A single quote character, used when assembling Python error/repr text. -/
def squote : String := String.singleton (Char.ofNat 39)

/-- An opening brace character (kept out of string literals). -/
def lbrace : String := String.singleton (Char.ofNat 123)

/-- A closing brace character (kept out of string literals). -/
def rbrace : String := String.singleton (Char.ofNat 125)

/-- Python `a or b` for `Optional[str]`: `None` and `""` are falsy. -/
def pyOrOptStr (a b : Option String) : Option String :=
  match a with
  | some s => if s = "" then b else some s
  | none => b

/-- Python `a or b` for `Optional[int]`: `None` and `0` are falsy. -/
def pyOrOptInt (a b : Option Int) : Option Int :=
  match a with
  | some n => if n = 0 then b else some n
  | none => b

/-- Python `a or b` for lists: `[]` is falsy. -/
def pyOrList {α : Type} (a b : List α) : List α :=
  match a with
  | [] => b
  | x :: xs => x :: xs

/-- Python `a or b` for `Optional[List[T]]`: `None` and `[]` are falsy. -/
def pyOrOptList {α : Type} (a b : Option (List α)) : Option (List α) :=
  match a with
  | some (x :: xs) => some (x :: xs)
  | _ => b

/-- Python `a or default` producing the unwrapped list (`self.analysis_bases
or [AnalysisBasis.ENROLLMENTS, AnalysisBasis.EXPOSURES]`). -/
def pyOrListD {α : Type} (a : Option (List α)) (d : List α) : List α :=
  match a with
  | some (x :: xs) => x :: xs
  | _ => d

/-- Python `a or default` for an optional string with a string default
(`self.type or "scalar"`). -/
def pyOrStrD (a : Option String) (d : String) : String :=
  match a with
  | some s => if s = "" then d else s
  | none => d

/-- Python `a or b` for plain strings (`""` falsy). -/
def pyOrStr (a b : String) : String :=
  if a = "" then b else a

/-- Python `a or b` where any `some` object is truthy (references,
definition records and similar objects have no falsy values). -/
def pyOrOptObj {α : Type} (a b : Option α) : Option α :=
  match a with
  | some x => some x
  | none => b

/-- Prefix test on character lists. -/
def charsPrefix : List Char → List Char → Bool
  | [], _ => true
  | _ :: _, [] => false
  | x :: xs, y :: ys => x = y && charsPrefix xs ys

/-- Substring test on character lists. -/
def charsContain (hay sub : List Char) : Bool :=
  match hay with
  | [] => sub.isEmpty
  | _ :: rest => charsPrefix sub hay || charsContain rest sub

/-- Python substring test `sub in s`. -/
def strContains (s sub : String) : Bool :=
  charsContain s.data sub.data

/-- Python `str.lower`. -/
def pyLower (s : String) : String :=
  String.mk (s.data.map Char.toLower)

/-- Whitespace-only line test used by `textwrap.dedent`. -/
def wsOnly (s : String) : Bool :=
  s.all (fun c => c = ' ' ∨ c = '\t')

/-- Leading whitespace of a line. -/
def leadingWs (s : String) : String :=
  s.takeWhile (fun c => c = ' ' ∨ c = '\t')

/-- Longest common prefix of two strings (on their character lists). -/
def commonPrefix (a b : String) : String :=
  String.mk (go a.data b.data)
where
  go : List Char → List Char → List Char
    | x :: xs, y :: ys => if x = y then x :: go xs ys else []
    | _, _ => []

/-- `textwrap.dedent`: blank out whitespace-only lines, compute the common
leading-whitespace margin of the remaining lines, strip it everywhere. -/
def dedent (text : String) : String :=
  let lines := (text.splitOn "\n").map (fun l => if wsOnly l then "" else l)
  let margins := (lines.filter (fun l => l ≠ "")).map leadingWs
  let margin := match margins with
    | [] => ""
    | m :: ms => ms.foldl commonPrefix m
  String.intercalate "\n" (lines.map (fun l =>
    if margin.isPrefixOf l then l.drop margin.length else l))

/-- `dedent(x) if x else x` applied to an optional string field. -/
def pyDedentOpt (a : Option String) : Option String :=
  match a with
  | some s => if s = "" then some s else some (dedent s)
  | none => none

/-- Numeric value of a digit string (characters already checked). -/
def digitsToNat (l : List Char) : Nat :=
  l.foldl (fun n c => n * 10 + (c.toNat - 48)) 0

/-- Split a character list on a separator character. -/
def splitCharsAux (c : Char) : List Char → List Char → List (List Char)
  | [], acc => [acc.reverse]
  | x :: xs, acc =>
    if x = c then acc.reverse :: splitCharsAux c xs []
    else splitCharsAux c xs (x :: acc)

/-- `str.split` on a one-character separator. -/
def splitOnChar (c : Char) (s : String) : List String :=
  (splitCharsAux c s.data []).map String.mk

/-- util.py `parse_date`: `None`/`""` give `None`; otherwise the string must
be `YYYY-MM-DD` (malformed input raises, like `datetime.strptime`).  The
calendar-exactness of `strptime` is approximated by digit/range checks; no
theorem depends on the approximation.  The parsed date is carried as its
validated string. -/
def parse_date (yyyy_mm_dd : Option String) : Except Err (Option String) :=
  match yyyy_mm_dd with
  | none => .ok none
  | some s =>
    if s = "" then .ok none
    else match splitOnChar '-' s with
      | [y, m, d] =>
        if y.data.length = 4 && y.data.all Char.isDigit
            && 0 < m.data.length && m.data.length ≤ 2 && m.data.all Char.isDigit
            && 0 < d.data.length && d.data.length ≤ 2 && d.data.all Char.isDigit
            && 1 ≤ digitsToNat m.data && digitsToNat m.data ≤ 12
            && 1 ≤ digitsToNat d.data && digitsToNat d.data ≤ 31 then
          .ok (some s)
        else
          .error (.valueError ("time data " ++ squote ++ s ++ squote
            ++ " does not match format " ++ squote ++ "%Y-%m-%d" ++ squote))
      | _ =>
        .error (.valueError ("time data " ++ squote ++ s ++ squote
          ++ " does not match format " ++ squote ++ "%Y-%m-%d" ++ squote))

/-- metric.py `AnalysisBasis`. -/
inductive AnalysisBasis
  | enrollments
  | exposures
  deriving DecidableEq, Repr

/-- metric.py `AnalysisPeriod`. -/
inductive AnalysisPeriod
  | day
  | week
  | days28
  | overall
  deriving DecidableEq, Repr

/-- experiment.py `Channel`. -/
inductive Channel
  | nightly
  | beta
  | release
  deriving DecidableEq, Repr

/-- experiment.py `Branch`. -/
structure Branch where
  slug : String
  ratio : Int
  deriving DecidableEq, Repr

/-- experiment.py `Experiment` — the canonical fact record supplied by the
caller.  `datetime` fields are carried as date strings. -/
structure Experiment where
  experimenter_slug : Option String
  normandy_slug : Option String
  type : String
  status : Option String
  branches : List Branch
  start_date : Option String
  end_date : Option String
  proposed_enrollment : Option Int
  reference_branch : Option String
  is_high_population : Bool
  app_name : String
  is_enrollment_paused : Option Bool := none
  app_id : Option String := none
  outcomes : List String := []
  enrollment_end_date : Option String := none
  boolean_pref : Option String := none
  channel : Option Channel := none
  is_rollout : Bool := false
  deriving DecidableEq, Repr

/-- pre_treatment.py `PreTreatmentReference`: a name plus an argument blob. -/
structure PreTreatmentReference where
  name : String
  args : List (String × Val)
  deriving DecidableEq, Repr

/-- pre_treatment.py `PreTreatmentReference.resolve(spec)` returns `self`. -/
def PreTreatmentReference.resolvePre (self : PreTreatmentReference) :
    PreTreatmentReference :=
  self

/-- statistic.py `Statistic`: a named aggregation treatment with an opaque
parameter blob. -/
structure Statistic where
  name : String
  params : List (String × Val)
  deriving DecidableEq, Repr

/-- A piece of a data source's `from_expression`: literal text or the
`{dataset}` placeholder substituted by `str.format`. -/
inductive FromPiece
  | lit (s : String)
  | dataset
  deriving DecidableEq, Repr

/-- data_source.py `from_expression` value: a string that may contain the
`{dataset}` placeholder. -/
abbrev FromExpression := List FromPiece

/-- Whether the expression contains the `{dataset}` placeholder. -/
def hasDatasetPlaceholder (e : FromExpression) : Bool :=
  e.any (fun p => match p with | .dataset => true | .lit _ => false)

/-- The expression's source text (placeholder shown in braces), which is the
string `str.format` leaves unchanged when there is no placeholder. -/
def FromExpression.text : FromExpression → String
  | [] => ""
  | .lit s :: rest => s ++ FromExpression.text rest
  | .dataset :: rest => lbrace ++ "dataset" ++ rbrace ++ FromExpression.text rest

/-- `from_expression.format(dataset=d)`. -/
def FromExpression.format : FromExpression → String → String
  | [], _ => ""
  | .lit s :: rest, d => s ++ FromExpression.format rest d
  | .dataset :: rest, d => d ++ FromExpression.format rest d

/-- data_source.py `DataSource` — frozen resolved data source. -/
structure DataSource where
  name : String
  from_expression : FromExpression
  experiments_column_type : Option String := some "simple"
  client_id_column : String := "client_id"
  submission_date_column : String := "submission_date"
  default_dataset : Option String := none
  build_id_column : String := "SAFE.SUBSTR(application.build_id, 0, 8)"
  friendly_name : Option String := none
  description : Option String := none
  deriving DecidableEq, Repr

/-- data_source.py `DataSource.EXPERIMENT_COLUMN_TYPES`. -/
def EXPERIMENT_COLUMN_TYPES : List (Option String) :=
  [none, some "simple", some "native", some "glean"]

/-- data_source.py `DataSource.from_expr_for`: expand the `{dataset}`
placeholder from the explicit dataset or `default_dataset`; if the
placeholder is present and neither is available, raise `ValueError`. -/
def DataSource.from_expr_for (self : DataSource) (dataset : Option String) :
    Except Err String :=
  let effective_dataset := pyOrOptStr dataset self.default_dataset
  match effective_dataset with
  | none =>
    if hasDatasetPlaceholder self.from_expression then
      .error (.valueError (self.name
        ++ ": from_expression contains a dataset template but no value was provided."))
    else
      .ok (FromExpression.text self.from_expression)
  | some d => .ok (FromExpression.format self.from_expression d)

/-- Constructing a data_source.py `DataSource` runs the attrs validators in
field order: `experiments_column_type` must be one of
`EXPERIMENT_COLUMN_TYPES`, and `default_dataset` must make
`from_expr_for(None)` succeed. -/
def DataSource.make (name : String) (from_expression : FromExpression)
    (experiments_column_type : Option String := some "simple")
    (client_id_column : String := "client_id")
    (submission_date_column : String := "submission_date")
    (default_dataset : Option String := none)
    (build_id_column : String := "SAFE.SUBSTR(application.build_id, 0, 8)")
    (friendly_name : Option String := none)
    (description : Option String := none) : Except Err DataSource :=
  if experiments_column_type ∉ EXPERIMENT_COLUMN_TYPES then
    .error (.valueError ("experiments_column_type "
      ++ (match experiments_column_type with
          | some s => squote ++ s ++ squote
          | none => "None")
      ++ " must be one of: (None, " ++ squote ++ "simple" ++ squote ++ ", "
      ++ squote ++ "native" ++ squote ++ ", " ++ squote ++ "glean" ++ squote ++ ")"))
  else
    let ds : DataSource :=
      { name := name, from_expression := from_expression,
        experiments_column_type := experiments_column_type,
        client_id_column := client_id_column,
        submission_date_column := submission_date_column,
        default_dataset := default_dataset,
        build_id_column := build_id_column,
        friendly_name := friendly_name, description := description }
    match ds.from_expr_for none with
    | .error e => .error e
    | .ok _ => .ok ds

/-- data_source.py `DataSourceDefinition` — spec-side data source diff. -/
structure DataSourceDefinition where
  name : String
  from_expression : Option FromExpression := none
  experiments_column_type : Option String := none
  client_id_column : Option String := none
  submission_date_column : Option String := none
  default_dataset : Option String := none
  build_id_column : Option String := none
  friendly_name : Option String := none
  description : Option String := none
  deriving DecidableEq, Repr

/-- data_source.py `DataSourceDefinition.resolve`: build the `DataSource`,
letting falsy fields fall back to the `DataSource` defaults, and turning the
string `"none"` (any case) for `experiments_column_type` into `None`.
A missing `from_expression` fails the `DataSource` attrs type validator. -/
def DataSourceDefinition.resolveDef (self : DataSourceDefinition) :
    Except Err DataSource :=
  match self.from_expression with
  | none =>
    .error (.typeError ((squote ++ "from_expression" ++ squote)
      ++ " must be <class " ++ squote ++ "str" ++ squote ++ ">"))
  | some fe =>
    let ect :=
      if pyLower (pyOrStr (match self.experiments_column_type with
                   | some s => s
                   | none => "") "") = "none" then
        none
      else
        pyOrOptStr self.experiments_column_type (some "simple")
    DataSource.make self.name fe ect
      (pyOrStrD self.client_id_column "client_id")
      (pyOrStrD self.submission_date_column "submission_date")
      (pyOrOptStr self.default_dataset none)
      (pyOrStrD self.build_id_column "SAFE.SUBSTR(application.build_id, 0, 8)")
      (pyOrOptStr self.friendly_name none)
      (pyOrOptStr self.description none)

/-- data_source.py `DataSourceDefinition.merge`: every field takes the
donor's value when it is truthy, otherwise keeps the receiver's. -/
def DataSourceDefinition.merge (self other : DataSourceDefinition) :
    DataSourceDefinition :=
  { name := pyOrStr other.name self.name,
    from_expression := pyOrOptList other.from_expression self.from_expression,
    experiments_column_type :=
      pyOrOptStr other.experiments_column_type self.experiments_column_type,
    client_id_column := pyOrOptStr other.client_id_column self.client_id_column,
    submission_date_column :=
      pyOrOptStr other.submission_date_column self.submission_date_column,
    default_dataset := pyOrOptStr other.default_dataset self.default_dataset,
    build_id_column := pyOrOptStr other.build_id_column self.build_id_column,
    friendly_name := pyOrOptStr other.friendly_name self.friendly_name,
    description := pyOrOptStr other.description self.description }

/-- data_source.py `DataSourceReference`: a bare data source name. -/
structure DataSourceReference where
  name : String
  deriving DecidableEq, Repr

/-- data_source.py `DataSourcesSpec` — keyed data source definitions. -/
structure DataSourcesSpec where
  definitions : List (String × DataSourceDefinition) := []
  deriving DecidableEq, Repr

/-- The keyed-collection merge shared by `MetricsSpec.merge` and
`DataSourcesSpec.merge`: keys present in both are merged recursively with
`mergeOne` (donor second), keys present only in the donor are appended
unchanged. -/
def mergeKeyedDefs {α : Type} (mine others : List (String × α))
    (mergeOne : α → α → α) : List (String × α) :=
  (mine.map (fun p =>
    match List.lookup p.1 others with
    | some o => (p.1, mergeOne p.2 o)
    | none => p))
  ++ others.filter (fun p => (List.lookup p.1 mine).isNone)

/-- data_source.py `DataSourcesSpec.merge`. -/
def DataSourcesSpec.merge (self other : DataSourcesSpec) : DataSourcesSpec :=
  { definitions :=
      mergeKeyedDefs self.definitions other.definitions
        DataSourceDefinition.merge }

/-- A piece of a metric's Jinja2 `select_expression` template: literal text
or a `parameters.<name>` interpolation point. -/
inductive TemplatePiece
  | lit (s : String)
  | param (name : String)
  deriving DecidableEq, Repr

/-- metric.py `select_expression` template. -/
abbrev SelectTemplate := List TemplatePiece

/-- metric.py: `"parameters" in str(select_expr_template)`.  A
`parameters.<name>` interpolation point always puts the word in the
template's source text; a literal may also contain it. -/
def templateMentionsParameters (t : SelectTemplate) : Bool :=
  t.any (fun p => match p with
    | .param _ => true
    | .lit s => strContains s "parameters")

/-- Jinja2 rendering with `StrictUndefined`: interpolation points are
looked up among the bindings; an unbound interpolation point is a
rendering error, never a silent empty substitution. -/
def renderTemplate : SelectTemplate → List (String × String) → Except Err String
  | [], _ => .ok ""
  | .lit s :: rest, b =>
    match renderTemplate rest b with
    | .ok r => .ok (s ++ r)
    | .error e => .error e
  | .param n :: rest, b =>
    match List.lookup n b with
    | some v =>
      match renderTemplate rest b with
      | .ok r => .ok (v ++ r)
      | .error e => .error e
    | none =>
      .error (.valueError (squote ++ "parameters" ++ squote
        ++ " has no attribute " ++ squote ++ n ++ squote))

/-- The value of a parameter: a scalar, or a per-branch mapping. -/
inductive ParamValue
  | scalar (s : String)
  | branches (m : List (String × String))
  deriving DecidableEq, Repr

/-- Modelled from the spec: parameter.py is not under src/.  Spec §3:
`ParameterDefinition` has `name`, `value?`, `default?`,
`distinct_by_branch: bool`, `friendly_name?`, `description?`; `value` must
be a per-branch mapping when `distinct_by_branch` is true, a scalar
otherwise.  Only `value` and `distinct_by_branch` are read by the
embedded code (metric.py `generate_select_expression`). -/
structure ParameterDefinition where
  name : String
  value : Option ParamValue := none
  default : Option ParamValue := none
  distinct_by_branch : Bool := false
  friendly_name : Option String := none
  description : Option String := none
  deriving DecidableEq, Repr

/-- Modelled from the spec: parameter.py is not under src/.  The keyed
container of parameter definitions (`spec.parameters.definitions`) read by
metric.py. -/
structure ParameterSpec where
  definitions : List (String × ParameterDefinition) := []
  deriving DecidableEq, Repr

/-- Python `repr` of a string-to-string dict, the text Jinja2 interpolates
for a mapping value that is substituted directly. -/
def pyDictRepr (m : List (String × String)) : String :=
  lbrace
  ++ String.intercalate ", " (m.map (fun kv =>
       squote ++ kv.1 ++ squote ++ ": " ++ squote ++ kv.2 ++ squote))
  ++ rbrace

/-- The text Jinja2 interpolates for a formatted parameter that is not the
branch-conditional CASE form: the value itself for a scalar, the dict repr
for a mapping, `"None"` for an unset value. -/
def scalarRender : Option ParamValue → String
  | none => "None"
  | some (.scalar s) => s
  | some (.branches m) => pyDictRepr m

/-- metric.py `generate_select_expression`'s CASE form: `"CASE e.branch "`
followed by the space-joined `WHEN "<branch>" THEN "<value>"` clauses in
the mapping's stored order, then `" END"`. -/
def caseExpression (m : List (String × String)) : String :=
  "CASE e.branch "
  ++ String.intercalate " " (m.map (fun bv =>
       "WHEN \"" ++ bv.1 ++ "\" THEN \"" ++ bv.2 ++ "\""))
  ++ " END"

/-- The text substituted for one parameter: the CASE form when
`distinct_by_branch` is true and the value is a mapping, the value
directly otherwise. -/
def formatOneParam (pd : ParameterDefinition) : String :=
  match pd.distinct_by_branch, pd.value with
  | true, some (.branches m) => caseExpression m
  | _, v => scalarRender v

/-- metric.py `generate_select_expression`'s `formatted_params`: each
parameter whose definition has `distinct_by_branch` true and a mapping
value maps to the CASE form; every other parameter maps to its value
directly. -/
def formattedParams (pds : List (String × ParameterDefinition)) :
    List (String × String) :=
  pds.map (fun p => (p.1, formatOneParam p.2))

/-- One entry of metric.py `MetricDefinition.statistics`
(`Dict[str, Dict[str, Any]]`): the statistic's parameter blob.  The blob's
`"pre_treatments"` key — popped by `resolve` before the `Statistic` is
built — is represented as the separate `pre_treatments` field, already
parsed into references (a bare string becomes a reference with empty
args), so `params` never contains it. -/
structure StatisticSpec where
  params : List (String × Val) := []
  pre_treatments : List PreTreatmentReference := []
  deriving DecidableEq, Repr

/-- metric.py `MetricDefinition` — spec-side metric diff. -/
structure MetricDefinition where
  name : String
  statistics : Option (List (String × StatisticSpec)) := none
  select_expression : Option SelectTemplate := none
  data_source : Option DataSourceReference := none
  friendly_name : Option String := none
  description : Option String := none
  bigger_is_better : Bool := true
  analysis_bases : Option (List AnalysisBasis) := none
  type : Option String := none
  category : Option String := none
  deriving DecidableEq, Repr

/-- metric.py `MetricDefinition.merge`: for every attrs field,
`self.f = other.f or self.f`. -/
def MetricDefinition.merge (self other : MetricDefinition) : MetricDefinition :=
  { name := pyOrStr other.name self.name,
    statistics := pyOrOptList other.statistics self.statistics,
    select_expression := pyOrOptList other.select_expression self.select_expression,
    data_source := pyOrOptObj other.data_source self.data_source,
    friendly_name := pyOrOptStr other.friendly_name self.friendly_name,
    description := pyOrOptStr other.description self.description,
    bigger_is_better := other.bigger_is_better || self.bigger_is_better,
    analysis_bases := pyOrOptList other.analysis_bases self.analysis_bases,
    type := pyOrOptStr other.type self.type,
    category := pyOrOptStr other.category self.category }

/-- metric.py `Metric` — frozen resolved metric. -/
structure Metric where
  name : String
  data_source : DataSource
  select_expression : String
  friendly_name : Option String := none
  description : Option String := none
  bigger_is_better : Bool := true
  analysis_bases : List AnalysisBasis := [.enrollments, .exposures]
  type : String := "scalar"
  category : Option String := none
  deriving DecidableEq, Repr

/-- metric.py `Summary` — a metric with a statistical treatment. -/
structure Summary where
  metric : Metric
  statistic : Statistic
  pre_treatments : List PreTreatmentReference := []
  deriving DecidableEq, Repr

/-- metric.py `MetricReference`: a bare metric name. -/
structure MetricReference where
  name : String
  deriving DecidableEq, Repr

/-- metric.py `MetricsSpec` — the metrics section: period lists of
references plus keyed metric definitions. -/
structure MetricsSpec where
  daily : List MetricReference := []
  weekly : List MetricReference := []
  days28 : List MetricReference := []
  overall : List MetricReference := []
  definitions : List (String × MetricDefinition) := []
  deriving DecidableEq, Repr

/-- metric.py `MetricsSpec.merge`: period lists append (donor after
receiver); definitions merge per key, donor-only keys inserted unchanged. -/
def MetricsSpec.merge (self other : MetricsSpec) : MetricsSpec :=
  { daily := self.daily ++ other.daily,
    weekly := self.weekly ++ other.weekly,
    days28 := self.days28 ++ other.days28,
    overall := self.overall ++ other.overall,
    definitions :=
      mergeKeyedDefs self.definitions other.definitions MetricDefinition.merge }

/-- The period list `getattr(self, period.table_suffix)` reads. -/
def MetricsSpec.refsFor (self : MetricsSpec) : AnalysisPeriod → List MetricReference
  | .day => self.daily
  | .week => self.weekly
  | .days28 => self.days28
  | .overall => self.overall

/-- experiment.py `SegmentReference` (segment.py is not under src/; a
reference is a bare name, like the metric and data source references). -/
structure SegmentReference where
  name : String
  deriving DecidableEq, Repr

/-- Modelled from the spec: exposure_signal.py is not under src/.  Only the
fields needed as an `ExperimentSpec` member (an opaque named definition)
are included; no claim resolves exposure signals. -/
structure ExposureSignalDefinition where
  name : String
  deriving DecidableEq, Repr

/-- experiment.py `ExperimentSpec` — overrides for the experiment fact
record. -/
structure ExperimentSpec where
  enrollment_query : Option String := none
  enrollment_period : Option Int := none
  reference_branch : Option String := none
  start_date : Option String := none
  end_date : Option String := none
  segments : List SegmentReference := []
  skip : Bool := false
  exposure_signal : Option ExposureSignalDefinition := none
  is_private : Bool := false
  dataset_id : Option String := none
  deriving DecidableEq, Repr

/-- experiment.py `ExperimentSpec.merge`: for every attrs field,
`self.f = other.f or self.f` (no validators run on assignment). -/
def ExperimentSpec.merge (self other : ExperimentSpec) : ExperimentSpec :=
  { enrollment_query := pyOrOptStr other.enrollment_query self.enrollment_query,
    enrollment_period := pyOrOptInt other.enrollment_period self.enrollment_period,
    reference_branch := pyOrOptStr other.reference_branch self.reference_branch,
    start_date := pyOrOptStr other.start_date self.start_date,
    end_date := pyOrOptStr other.end_date self.end_date,
    segments := pyOrList other.segments self.segments,
    skip := other.skip || self.skip,
    exposure_signal := pyOrOptObj other.exposure_signal self.exposure_signal,
    is_private := other.is_private || self.is_private,
    dataset_id := pyOrOptStr other.dataset_id self.dataset_id }

/-- Constructing an experiment.py `ExperimentSpec` runs the attrs field
validators in field order: `start_date` and `end_date` must parse as
`YYYY-MM-DD` (`_validate_yyyy_mm_dd`), and `_validate_dataset_id` rejects
`is_private` with no `dataset_id` — at construction. -/
def ExperimentSpec.make (enrollment_query : Option String)
    (enrollment_period : Option Int) (reference_branch : Option String)
    (start_date end_date : Option String) (segments : List SegmentReference)
    (skip : Bool) (exposure_signal : Option ExposureSignalDefinition)
    (is_private : Bool) (dataset_id : Option String) :
    Except Err ExperimentSpec :=
  match parse_date start_date with
  | .error e => .error e
  | .ok _ =>
    match parse_date end_date with
    | .error e => .error e
    | .ok _ =>
      if is_private && dataset_id.isNone then
        .error (.valueError
          "dataset_id must be set to a custom dataset for private experiments")
      else
        .ok { enrollment_query := enrollment_query,
              enrollment_period := enrollment_period,
              reference_branch := reference_branch,
              start_date := start_date, end_date := end_date,
              segments := segments, skip := skip,
              exposure_signal := exposure_signal,
              is_private := is_private, dataset_id := dataset_id }

/-- experiment.py `ExperimentConfiguration`: the experiment spec paired
with the fact record.  Segments and the exposure signal (modules not under
src/) are not resolved here; no claim reads them. -/
structure ExperimentConfiguration where
  experiment_spec : ExperimentSpec
  experiment : Experiment
  deriving DecidableEq, Repr

/-- experiment.py `ExperimentConfiguration.app_name`. -/
def ExperimentConfiguration.app_name (self : ExperimentConfiguration) : String :=
  self.experiment.app_name

/-- experiment.py `ExperimentConfiguration.dataset_id`. -/
def ExperimentConfiguration.dataset_id (self : ExperimentConfiguration) :
    Option String :=
  self.experiment_spec.dataset_id

/-- experiment.py `ExperimentConfiguration.is_private`. -/
def ExperimentConfiguration.is_private (self : ExperimentConfiguration) : Bool :=
  self.experiment_spec.is_private

/-- Modelled from the spec: analysis.py is not under src/.  Spec §6 lists
the fragment sections; the sections the embedded code reads —
`experiment`, `metrics`, `data_sources`, `parameters` — are included,
each with its merge defined in src (experiment.py, metric.py,
data_source.py).  Sections no claim touches (segments, functions on the
spec itself) are omitted. -/
structure AnalysisSpec where
  experiment : ExperimentSpec := {}
  metrics : MetricsSpec := {}
  data_sources : DataSourcesSpec := {}
  parameters : ParameterSpec := {}
  deriving DecidableEq, Repr

/-- Keyed per-field merge of parameter definitions following the §4.1
keyed-collection rule (donor wins per set field).  Modelled from the spec:
parameter.py is not under src/ and no claim exercises parameter merging;
the failure conditions of `merge_param` are not modelled. -/
def ParameterDefinition.mergeFields (self other : ParameterDefinition) :
    ParameterDefinition :=
  { name := pyOrStr other.name self.name,
    value := pyOrOptObj other.value self.value,
    default := pyOrOptObj other.default self.default,
    distinct_by_branch := other.distinct_by_branch || self.distinct_by_branch,
    friendly_name := pyOrOptStr other.friendly_name self.friendly_name,
    description := pyOrOptStr other.description self.description }

/-- Modelled from the spec: §4.1 merge of two whole analysis specs with the
donor second, delegating to the per-section merges defined in src. -/
def AnalysisSpec.merge (self other : AnalysisSpec) : AnalysisSpec :=
  { experiment := self.experiment.merge other.experiment,
    metrics := self.metrics.merge other.metrics,
    data_sources := self.data_sources.merge other.data_sources,
    parameters :=
      { definitions :=
          mergeKeyedDefs self.parameters.definitions
            other.parameters.definitions ParameterDefinition.mergeFields } }

/-- Modelled from the spec: definition.py is not under src/.  A definitions
fragment holds shared metric and data-source definitions (plus segments,
omitted: the module is absent and no claim touches them). -/
structure DefinitionSpec where
  metrics : MetricsSpec := {}
  data_sources : DataSourcesSpec := {}
  parameters : ParameterSpec := {}
  deriving DecidableEq, Repr

/-- Modelled from the spec: §4.1 merge of two definition specs, donor
second. -/
def DefinitionSpec.merge (self other : DefinitionSpec) : DefinitionSpec :=
  { metrics := self.metrics.merge other.metrics,
    data_sources := self.data_sources.merge other.data_sources,
    parameters :=
      { definitions :=
          mergeKeyedDefs self.parameters.definitions
            other.parameters.definitions ParameterDefinition.mergeFields } }

/-- Modelled from the spec: outcome.py is not under src/.  An outcome
bundle carries metrics and parameters; `ConfigCollection.merge` (src)
never opens it. -/
structure OutcomeSpec where
  metrics : MetricsSpec := {}
  parameters : ParameterSpec := {}
  deriving DecidableEq, Repr

/-- A piece of a function.py registry entry's string template: literal
text or the single `select_expr` substitution point. -/
inductive FnPiece
  | lit (s : String)
  | selectExpr
  deriving DecidableEq, Repr

/-- function.py `Function`: the callable is `definition.format(select_expr=…)`
over a stored string template. -/
structure Function where
  slug : String
  definition : List FnPiece
  deriving DecidableEq, Repr

/-- function.py `FunctionsSpec`. -/
structure FunctionsSpec where
  functions : List (String × Function) := []
  deriving DecidableEq, Repr

/-- config.py `Config` — an external config file entry.  The `MonitoringSpec`
alternative (monitoring.py, not under src/) is not modelled; every spec here
is an `AnalysisSpec`.  `last_modified` timestamps are carried as integers. -/
structure Config where
  slug : String
  spec : AnalysisSpec
  last_modified : Int
  is_private : Bool := false
  deriving DecidableEq, Repr

/-- config.py `DefaultConfig` — platform-wide defaults (same fields as
`Config`; the slug is the platform). -/
structure DefaultConfig where
  slug : String
  spec : AnalysisSpec
  last_modified : Int
  is_private : Bool := false
  deriving DecidableEq, Repr

/-- config.py `DefinitionConfig` — shared definitions for one platform. -/
structure DefinitionConfig where
  slug : String
  spec : DefinitionSpec
  last_modified : Int
  is_private : Bool := false
  platform : String := "firefox_desktop"
  deriving DecidableEq, Repr

/-- config.py `Outcome` — an external outcome snippet. -/
structure Outcome where
  slug : String
  spec : OutcomeSpec
  platform : String
  commit_hash : Option String
  is_private : Bool := false
  deriving DecidableEq, Repr

/-- config.py `ConfigCollection` — the Catalog. -/
structure ConfigCollection where
  configs : List Config := []
  outcomes : List Outcome := []
  defaults : List DefaultConfig := []
  definitions : List DefinitionConfig := []
  functions : Option FunctionsSpec := none
  deriving DecidableEq, Repr

/-- config.py `ConfigCollection.get_metric_definition`: scan the definition
configs; for each whose platform is the app name, scan its keyed metric
definitions for the slug; first hit wins, absence gives `None`. -/
def ConfigCollection.get_metric_definition (self : ConfigCollection)
    (slug app_name : String) : Option MetricDefinition :=
  self.definitions.findSome? (fun d =>
    if d.platform = app_name then
      List.lookup slug d.spec.metrics.definitions
    else none)

/-- config.py `ConfigCollection.get_data_source_definition`, same scan over
keyed data source definitions. -/
def ConfigCollection.get_data_source_definition (self : ConfigCollection)
    (slug app_name : String) : Option DataSourceDefinition :=
  self.definitions.findSome? (fun d =>
    if d.platform = app_name then
      List.lookup slug d.spec.data_sources.definitions
    else none)

/-- config.py `ConfigCollection.get_platform_defaults`: first default config
whose slug is the platform. -/
def ConfigCollection.get_platform_defaults (self : ConfigCollection)
    (platform : String) : Option AnalysisSpec :=
  self.defaults.findSome? (fun d =>
    if platform = d.slug then some d.spec else none)

/-- In-place assignment to the object `get_metric_definition` returned:
apply `upd` to the first metric definition the lookup traversal reaches
(metric.py resolve lines 177–181 mutate the stored definition). -/
def modifyFirstDef (l : List (String × MetricDefinition)) (slug : String)
    (upd : MetricDefinition → MetricDefinition) :
    Option (List (String × MetricDefinition)) :=
  match l with
  | [] => none
  | p :: rest =>
    if p.1 = slug then some ((p.1, upd p.2) :: rest)
    else (modifyFirstDef rest slug upd).map (fun r => p :: r)

/-- Catalog-level version of `modifyFirstDef`, traversing the definition
configs exactly as `get_metric_definition` does. -/
def modifyDefs (ds : List DefinitionConfig) (slug app_name : String)
    (upd : MetricDefinition → MetricDefinition) : List DefinitionConfig :=
  match ds with
  | [] => []
  | d :: rest =>
    if d.platform = app_name then
      match modifyFirstDef d.spec.metrics.definitions slug upd with
      | some defs =>
        { d with spec := { d.spec with
            metrics := { d.spec.metrics with definitions := defs } } } :: rest
      | none => d :: modifyDefs rest slug app_name upd
    else d :: modifyDefs rest slug app_name upd

/-- The state left in the Catalog by the in-place mutation of a stored
metric definition during `MetricDefinition.resolve`. -/
def ConfigCollection.modifyMetricDefinition (self : ConfigCollection)
    (slug app_name : String) (upd : MetricDefinition → MetricDefinition) :
    ConfigCollection :=
  { self with definitions := modifyDefs self.definitions slug app_name upd }

/-- Python `dict` insertion: replace the value in place when the key exists,
append otherwise. -/
def dictInsert {α : Type} (d : List (String × α)) (k : String) (v : α) :
    List (String × α) :=
  if (List.lookup k d).isSome then
    d.map (fun p => if p.1 = k then (p.1, v) else p)
  else d ++ [(k, v)]

/-- Python dict comprehension `{f(c): c for c in l}`: later duplicates
overwrite in place. -/
def toDict {α : Type} (f : α → String) (l : List α) : List (String × α) :=
  l.foldl (fun d c => dictInsert d (f c) c) []

/-- config.py `ConfigCollection.merge`'s per-kind loop: walk the donor dict;
a key absent from the receiver dict is inserted, a key present has its
entry's spec merged (donor as donor) via `upd`. -/
def mergeDictInto {α : Type} (upd : α → α → α) (d os : List (String × α)) :
    List (String × α) :=
  match os with
  | [] => d
  | (k, c) :: rest =>
    match List.lookup k d with
    | none => mergeDictInto upd (d ++ [(k, c)]) rest
    | some mine => mergeDictInto upd (dictInsert d k (upd mine c)) rest

/-- `configs[slug].spec.merge(config.spec)`: the in-place spec merge of a
receiver config entry with the donor's same-slug entry. -/
def mergeConfigEntry (mine theirs : Config) : Config :=
  { mine with spec := mine.spec.merge theirs.spec }

/-- Same-slug spec merge for default-config entries. -/
def mergeDefaultEntry (mine theirs : DefaultConfig) : DefaultConfig :=
  { mine with spec := mine.spec.merge theirs.spec }

/-- Same-slug spec merge for definition-config entries. -/
def mergeDefinitionEntry (mine theirs : DefinitionConfig) : DefinitionConfig :=
  { mine with spec := mine.spec.merge theirs.spec }

/-- The slug-keyed dict `ConfigCollection.merge` builds for one entry kind:
receiver and donor lists become Python dicts keyed by slug, then the
donor dict is walked, inserting absent keys and `upd`-merging present
ones. -/
def mergedDict {α : Type} (slugOf : α → String) (upd : α → α → α)
    (mine others : List α) : List (String × α) :=
  mergeDictInto upd (toDict slugOf mine) (toDict slugOf others)

/-- The function registry of a Catalog (`functions.functions`, empty when
the Catalog has none). -/
def funcsOf (cc : ConfigCollection) : List (String × Function) :=
  match cc.functions with
  | some fs => fs.functions
  | none => []

/-- The function registry after `ConfigCollection.merge`: the donor's
entries, then the receiver's entries whose name the donor lacks. -/
def mergedFunctions (self other : ConfigCollection) : List (String × Function) :=
  funcsOf other
  ++ (funcsOf self).filter (fun p =>
       (List.lookup p.1 (funcsOf other)).isNone)

/-- config.py `ConfigCollection.merge`: configs, defaults and definitions
are keyed by slug and spec-merged with the donor's spec as donor; outcomes
are keyed by slug and adopted wholesale from the donor, keeping only the
receiver outcomes whose slug the donor lacks; functions keep the donor's
registry plus the receiver's entries absent from it. -/
def ConfigCollection.merge (self other : ConfigCollection) : ConfigCollection :=
  { configs :=
      (mergedDict Config.slug mergeConfigEntry self.configs
        other.configs).map Prod.snd,
    outcomes :=
      other.outcomes
      ++ self.outcomes.filter (fun o =>
           ¬ (other.outcomes.map Outcome.slug).contains o.slug),
    defaults :=
      (mergedDict DefaultConfig.slug mergeDefaultEntry self.defaults
        other.defaults).map Prod.snd,
    definitions :=
      (mergedDict DefinitionConfig.slug mergeDefinitionEntry self.definitions
        other.definitions).map Prod.snd,
    functions := some { functions := mergedFunctions self other } }

/-- Erase the two metric-definition fields `MetricDefinition.resolve`
may write into a stored Catalog definition. -/
def MetricDefinition.eraseStats (md : MetricDefinition) : MetricDefinition :=
  { md with statistics := none, analysis_bases := none }

/-- `MetricDefinition.eraseStats` mapped through one definition config. -/
def DefinitionConfig.eraseStats (d : DefinitionConfig) : DefinitionConfig :=
  { d with spec := { d.spec with
      metrics := { d.spec.metrics with
        definitions :=
          d.spec.metrics.definitions.map (fun p => (p.1, p.2.eraseStats)) } } }

/-- The Catalog modulo the statistics/analysis_bases fields of its stored
metric definitions — the only state resolution can write. -/
def ConfigCollection.eraseMetricStats (cc : ConfigCollection) : ConfigCollection :=
  { cc with definitions := cc.definitions.map DefinitionConfig.eraseStats }

/-- metric.py `MetricDefinition.generate_select_expression`: when the
template's source text does not mention `parameters`, render it with no
bindings; otherwise render it against `formatted_params`.  The `configs`
argument supplies the Jinja2 environment's registry functions, which the
embedded template pieces do not call. -/
def MetricDefinition.generate_select_expression
    (param_definitions : List (String × ParameterDefinition))
    (select_expr_template : SelectTemplate) (configs : ConfigCollection) :
    Except Err String :=
  if ¬ templateMentionsParameters select_expr_template then
    renderTemplate select_expr_template []
  else
    renderTemplate select_expr_template (formattedParams param_definitions)

/-- data_source.py `DataSourceReference.resolve`: the local spec's keyed
data source definitions first; only on absence the Catalog scoped to the
experiment's platform; absence from both raises `DefinitionNotFound`
naming the reference. -/
def DataSourceReference.resolve (self : DataSourceReference)
    (spec : AnalysisSpec) (conf : ExperimentConfiguration)
    (configs : ConfigCollection) : Except Err DataSource :=
  match List.lookup self.name spec.data_sources.definitions with
  | some dsd => dsd.resolveDef
  | none =>
    match configs.get_data_source_definition self.name conf.app_name with
    | some dsd => dsd.resolveDef
    | none =>
      .error (.definitionNotFound ("No default definition for data source "
        ++ squote ++ self.name ++ squote ++ " found"))

/-- The in-place field assignment metric.py `MetricDefinition.resolve`
performs on the Catalog definition it fell back to:
`metric_definition.analysis_bases = self.analysis_bases or [ENROLLMENTS,
EXPOSURES]; metric_definition.statistics = self.statistics`. -/
def statsUpdate (self md : MetricDefinition) : MetricDefinition :=
  { md with
    analysis_bases :=
      some (pyOrListD self.analysis_bases [.enrollments, .exposures]),
    statistics := self.statistics }

/-- The summary built for one statistics entry: the statistic keeps the
parameter blob (pre_treatments popped), and each pre-treatment reference
is resolved (identically). -/
def summaryFromStat (metric : Metric) (p : String × StatisticSpec) : Summary :=
  { metric := metric,
    statistic := { name := p.1, params := p.2.params },
    pre_treatments := p.2.pre_treatments.map PreTreatmentReference.resolvePre }

/-- metric.py `MetricDefinition.resolve`.  When `select_expression` or
`data_source` is missing, the Catalog definition for the metric's name is
fetched, its `analysis_bases` and `statistics` fields are overwritten in
place (the Catalog mutation is the returned collection), and it is
resolved recursively; otherwise the select expression is rendered, the
data source reference resolved, and one `Summary` built per statistics
entry.  Zero resulting summaries raise `ValueError`; a missing statistics
mapping on a self-contained definition raises `ValueError` naming the
metric.  Fuel models Python's recursion limit. -/
def MetricDefinition.resolve (self : MetricDefinition) (spec : AnalysisSpec)
    (conf : ExperimentConfiguration) (configs : ConfigCollection) :
    Nat → Except Err (List Summary × ConfigCollection)
  | 0 => .error .recursionError
  | fuel + 1 =>
    match self.select_expression, self.data_source with
    | some tmpl, some dsr =>
      match MetricDefinition.generate_select_expression
          spec.parameters.definitions tmpl configs with
      | .error e => .error e
      | .ok select_expression =>
        match dsr.resolve spec conf configs with
        | .error e => .error e
        | .ok data_source =>
          let metric : Metric :=
            { name := self.name, data_source := data_source,
              select_expression := select_expression,
              friendly_name := pyDedentOpt self.friendly_name,
              description := pyDedentOpt self.description,
              bigger_is_better := self.bigger_is_better,
              analysis_bases :=
                pyOrListD self.analysis_bases [.enrollments, .exposures],
              type := pyOrStrD self.type "scalar",
              category := self.category }
          match self.statistics with
          | none =>
            .error (.valueError ("No statistical treatment defined for metric "
              ++ squote ++ self.name ++ squote))
          | some [] =>
            .error (.valueError ("Metric " ++ self.name
              ++ " has no statistical treatment defined."))
          | some (st :: sts) =>
            .ok ((st :: sts).map (summaryFromStat metric), configs)
    | _, _ =>
      match configs.get_metric_definition self.name conf.app_name with
      | none =>
        .error (.definitionNotFound
          ("No default definition found for referenced metric " ++ self.name))
      | some metric_definition =>
        match MetricDefinition.resolve (statsUpdate self metric_definition)
            spec conf
            (configs.modifyMetricDefinition self.name conf.app_name
              (statsUpdate self)) fuel with
        | .error e => .error e
        | .ok (metric_summary, configs'') =>
          match metric_summary with
          | s0 :: rest =>
            match self.statistics with
            | some (st :: sts) =>
              .ok ((st :: sts).map (summaryFromStat s0.metric), configs'')
            | _ => .ok (s0 :: rest, configs'')
          | [] =>
            .error (.valueError ("Metric " ++ self.name
              ++ " has no statistical treatment defined."))

/-- metric.py `MetricReference.resolve`: the local spec's keyed metric
definitions first; only on absence the Catalog scoped to the experiment's
platform; absence from both raises `DefinitionNotFound` naming the
reference. -/
def MetricReference.resolve (self : MetricReference) (spec : AnalysisSpec)
    (conf : ExperimentConfiguration) (configs : ConfigCollection)
    (fuel : Nat) : Except Err (List Summary × ConfigCollection) :=
  match List.lookup self.name spec.metrics.definitions with
  | some md => md.resolve spec conf configs fuel
  | none =>
    match configs.get_metric_definition self.name conf.app_name with
    | some md => md.resolve spec conf configs fuel
    | none =>
      .error (.definitionNotFound ("Could not locate metric " ++ self.name))

/-- The expansion of one period list: each reference's summaries in list
order, threading the Catalog state through the sequential resolutions. -/
def resolveSummaryList (refs : List MetricReference) (spec : AnalysisSpec)
    (conf : ExperimentConfiguration) (configs : ConfigCollection)
    (fuel : Nat) : Except Err (List Summary × ConfigCollection) :=
  match refs with
  | [] => .ok ([], configs)
  | r :: rest =>
    match r.resolve spec conf configs fuel with
    | .error e => .error e
    | .ok (s, configs') =>
      match resolveSummaryList rest spec conf configs' fuel with
      | .error e => .error e
      | .ok (srest, configs'') => .ok (s ++ srest, configs'')

/-- The dedup key of metric.py `MetricsSpec.resolve`:
`(summary.metric.name, summary.statistic.name)`. -/
def summaryKey (s : Summary) : String × String :=
  (s.metric.name, s.statistic.name)

/-- The dedup loop of `MetricsSpec.resolve`: scan, keeping each summary
whose key was not seen before. -/
def dedupSummaries : List Summary → List (String × String) → List Summary
  | [], _ => []
  | s :: rest, seen =>
    if summaryKey s ∈ seen then dedupSummaries rest seen
    else s :: dedupSummaries rest (summaryKey s :: seen)

/-- metric.py `MetricsSpec.resolve`'s per-period post-processing: reverse
the expanded summaries, then keep the first occurrence of each
`(metric.name, statistic.name)` key. -/
def uniqueSummaries (l : List Summary) : List Summary :=
  dedupSummaries l.reverse []

/-- One period of metric.py `MetricsSpec.resolve`: expand the period's
references, reverse, dedup by key. -/
def MetricsSpec.resolvePeriod (self : MetricsSpec) (period : AnalysisPeriod)
    (spec : AnalysisSpec) (conf : ExperimentConfiguration)
    (configs : ConfigCollection) (fuel : Nat) :
    Except Err (List Summary × ConfigCollection) :=
  match resolveSummaryList (self.refsFor period) spec conf configs fuel with
  | .error e => .error e
  | .ok (summaries, configs') => .ok (uniqueSummaries summaries, configs')

/-- metric.py `MetricsSpec.resolve`: the period loop over the
`AnalysisPeriod` enumeration in declaration order, threading the Catalog
state. -/
def MetricsSpec.resolve (self : MetricsSpec) (spec : AnalysisSpec)
    (conf : ExperimentConfiguration) (configs : ConfigCollection)
    (fuel : Nat) :
    Except Err (List (AnalysisPeriod × List Summary) × ConfigCollection) :=
  match self.resolvePeriod .day spec conf configs fuel with
  | .error e => .error e
  | .ok (sDay, c1) =>
    match self.resolvePeriod .week spec conf c1 fuel with
    | .error e => .error e
    | .ok (sWeek, c2) =>
      match self.resolvePeriod .days28 spec conf c2 fuel with
      | .error e => .error e
      | .ok (s28, c3) =>
        match self.resolvePeriod .overall spec conf c3 fuel with
        | .error e => .error e
        | .ok (sOverall, c4) =>
          .ok ([(.day, sDay), (.week, sWeek), (.days28, s28),
                (.overall, sOverall)], c4)

/-- The resolved output of a whole analysis spec (spec §3 Configuration):
the experiment configuration plus the per-period summaries. -/
structure AnalysisConfiguration where
  experiment : ExperimentConfiguration
  metrics : List (AnalysisPeriod × List Summary)
  deriving DecidableEq, Repr

/-- Modelled from the spec: analysis.py is not under src/.
`AnalysisSpec.default_for_experiment` starts from the platform defaults
for the experiment's app (an empty spec when the Catalog has none). -/
def AnalysisSpec.default_for_experiment (experiment : Experiment)
    (configs : ConfigCollection) : AnalysisSpec :=
  match configs.get_platform_defaults experiment.app_name with
  | some spec => spec
  | none => {}

/-- Modelled from the spec: analysis.py is not under src/.  Resolution
builds the experiment configuration from the spec's experiment section and
resolves the metrics section (`MetricsSpec.resolve`, src).  Segment and
exposure-signal resolution (modules absent, unread by every claim) is not
modelled. -/
def AnalysisSpec.resolve (self : AnalysisSpec) (experiment : Experiment)
    (configs : ConfigCollection) (fuel : Nat) :
    Except Err AnalysisConfiguration :=
  let conf : ExperimentConfiguration :=
    { experiment_spec := self.experiment, experiment := experiment }
  match self.metrics.resolve self conf configs fuel with
  | .error e => .error e
  | .ok (metrics, _) => .ok { experiment := conf, metrics := metrics }

/-- config.py `Config.validate` (the `AnalysisSpec` arm): merge the config's
spec onto the platform default spec, resolve, and reject a private config
whose resolved configuration has no `dataset_id`. -/
def Config.validate (self : Config) (configs : ConfigCollection)
    (experiment : Experiment) (fuel : Nat) : Except Err Unit :=
  let analysis_spec := AnalysisSpec.default_for_experiment experiment configs
  let analysis_spec := analysis_spec.merge self.spec
  match analysis_spec.resolve experiment configs fuel with
  | .error e => .error e
  | .ok resolved =>
    if self.is_private && resolved.experiment.dataset_id.isNone then
      .error (.valueError
        "dataset_id needs to be explicitly set for private experiments")
    else .ok ()

section Lemmas

variable {α : Type}

theorem lookup_nil (k : String) : List.lookup k ([] : List (String × α)) = none :=
  rfl

theorem lookup_cons (k a : String) (b : α) (l : List (String × α)) :
    List.lookup k ((a, b) :: l) =
      if k == a then some b else List.lookup k l := by
  cases hka : k == a <;> simp [List.lookup, hka]

theorem lookup_append (k : String) (l₁ l₂ : List (String × α)) :
    List.lookup k (l₁ ++ l₂) =
      match List.lookup k l₁ with
      | some v => some v
      | none => List.lookup k l₂ := by
  induction l₁ with
  | nil => simp [lookup_nil]
  | cons p l ih =>
    obtain ⟨a, b⟩ := p
    cases hka : k == a <;> simp [lookup_cons, hka, ih]

theorem lookup_mapMerge (m o : List (String × α)) (f : α → α → α) (k : String) :
    List.lookup k (m.map (fun p =>
        match List.lookup p.1 o with
        | some w => (p.1, f p.2 w)
        | none => p)) =
      (List.lookup k m).map (fun a =>
        match List.lookup k o with
        | some w => f a w
        | none => a) := by
  induction m with
  | nil => simp [lookup_nil]
  | cons p m ih =>
    obtain ⟨a, b⟩ := p
    cases hka : k == a
    · cases hv : List.lookup a o <;>
        simp [lookup_cons, hka, hv, ih]
    · have hk : k = a := eq_of_beq hka
      subst hk
      cases hv : List.lookup k o <;>
        simp [lookup_cons, hv]

theorem lookup_filter_unseen (m o : List (String × α)) (k : String)
    (h : List.lookup k m = none) :
    List.lookup k (o.filter (fun p => (List.lookup p.1 m).isNone)) =
      List.lookup k o := by
  induction o with
  | nil => simp
  | cons p o ih =>
    obtain ⟨a, b⟩ := p
    cases hka : k == a
    · cases hp : (List.lookup a m).isNone <;>
        simp [List.filter, hp, lookup_cons, hka, ih]
    · have hk : k = a := eq_of_beq hka
      subst hk
      simp [List.filter, h, lookup_cons]

/-- The keyed merge, observed through lookup: both present merge
recursively, donor-only adopt, receiver-only keep. -/
theorem lookup_mergeKeyedDefs (m o : List (String × α)) (f : α → α → α)
    (k : String) :
    List.lookup k (mergeKeyedDefs m o f) =
      match List.lookup k m, List.lookup k o with
      | some a, some b => some (f a b)
      | some a, none => some a
      | none, some b => some b
      | none, none => none := by
  unfold mergeKeyedDefs
  rw [lookup_append, lookup_mapMerge]
  cases hm : List.lookup k m with
  | some a => cases ho : List.lookup k o <;> simp [ho]
  | none =>
    simp only [Option.map_none']
    rw [lookup_filter_unseen _ _ _ hm]
    cases ho : List.lookup k o <;> simp

end Lemmas

/-- C3: For all Spec fragments A and B of the same kind and every field f,
if B.f is unset (falsy/None) the merged fragment keeps A's value of f, and
if B.f is set the merged fragment carries B.f; merge (which updates the
receiver in place, here the returned record) never erases a receiver value
when the donor's value is absent.  Stated field by field for
`MetricDefinition.merge`, `ExperimentSpec.merge` and
`DataSourceDefinition.merge`. -/
theorem spec_merge_field_rules :
    (∀ A B : MetricDefinition,
      (A.merge B).name = (if B.name = "" then A.name else B.name) ∧
      (A.merge B).statistics = (match B.statistics with
        | some (s :: ss) => some (s :: ss)
        | _ => A.statistics) ∧
      (A.merge B).select_expression = (match B.select_expression with
        | some (p :: ps) => some (p :: ps)
        | _ => A.select_expression) ∧
      (A.merge B).data_source = (match B.data_source with
        | some d => some d
        | none => A.data_source) ∧
      (A.merge B).friendly_name = (match B.friendly_name with
        | some s => if s = "" then A.friendly_name else some s
        | none => A.friendly_name) ∧
      (A.merge B).description = (match B.description with
        | some s => if s = "" then A.description else some s
        | none => A.description) ∧
      (A.merge B).bigger_is_better =
        (if B.bigger_is_better then true else A.bigger_is_better) ∧
      (A.merge B).analysis_bases = (match B.analysis_bases with
        | some (x :: xs) => some (x :: xs)
        | _ => A.analysis_bases) ∧
      (A.merge B).type = (match B.type with
        | some s => if s = "" then A.type else some s
        | none => A.type) ∧
      (A.merge B).category = (match B.category with
        | some s => if s = "" then A.category else some s
        | none => A.category)) ∧
    (∀ A B : ExperimentSpec,
      (A.merge B).enrollment_query = (match B.enrollment_query with
        | some s => if s = "" then A.enrollment_query else some s
        | none => A.enrollment_query) ∧
      (A.merge B).enrollment_period = (match B.enrollment_period with
        | some n => if n = 0 then A.enrollment_period else some n
        | none => A.enrollment_period) ∧
      (A.merge B).reference_branch = (match B.reference_branch with
        | some s => if s = "" then A.reference_branch else some s
        | none => A.reference_branch) ∧
      (A.merge B).start_date = (match B.start_date with
        | some s => if s = "" then A.start_date else some s
        | none => A.start_date) ∧
      (A.merge B).end_date = (match B.end_date with
        | some s => if s = "" then A.end_date else some s
        | none => A.end_date) ∧
      (A.merge B).segments = (match B.segments with
        | [] => A.segments
        | s :: ss => s :: ss) ∧
      (A.merge B).skip = (if B.skip then true else A.skip) ∧
      (A.merge B).exposure_signal = (match B.exposure_signal with
        | some e => some e
        | none => A.exposure_signal) ∧
      (A.merge B).is_private = (if B.is_private then true else A.is_private) ∧
      (A.merge B).dataset_id = (match B.dataset_id with
        | some s => if s = "" then A.dataset_id else some s
        | none => A.dataset_id)) ∧
    (∀ A B : DataSourceDefinition,
      (A.merge B).name = (if B.name = "" then A.name else B.name) ∧
      (A.merge B).from_expression = (match B.from_expression with
        | some (p :: ps) => some (p :: ps)
        | _ => A.from_expression) ∧
      (A.merge B).experiments_column_type =
        (match B.experiments_column_type with
         | some s => if s = "" then A.experiments_column_type else some s
         | none => A.experiments_column_type) ∧
      (A.merge B).client_id_column = (match B.client_id_column with
        | some s => if s = "" then A.client_id_column else some s
        | none => A.client_id_column) ∧
      (A.merge B).submission_date_column =
        (match B.submission_date_column with
         | some s => if s = "" then A.submission_date_column else some s
         | none => A.submission_date_column) ∧
      (A.merge B).default_dataset = (match B.default_dataset with
        | some s => if s = "" then A.default_dataset else some s
        | none => A.default_dataset) ∧
      (A.merge B).build_id_column = (match B.build_id_column with
        | some s => if s = "" then A.build_id_column else some s
        | none => A.build_id_column) ∧
      (A.merge B).friendly_name = (match B.friendly_name with
        | some s => if s = "" then A.friendly_name else some s
        | none => A.friendly_name) ∧
      (A.merge B).description = (match B.description with
        | some s => if s = "" then A.description else some s
        | none => A.description)) := by
  refine ⟨fun A B => ?_, fun A B => ?_, fun A B => ?_⟩
  · refine ⟨?_, ?_, ?_, ?_, ?_, ?_, ?_, ?_, ?_, ?_⟩
    · show pyOrStr B.name A.name = _
      unfold pyOrStr
      cases hb : decide (B.name = "") <;>
        simp_all [decide_eq_true_eq]
    · show pyOrOptList B.statistics A.statistics = _
      unfold pyOrOptList
      cases hb : B.statistics with
      | none => rfl
      | some l => cases l <;> rfl
    · show pyOrOptList B.select_expression A.select_expression = _
      unfold pyOrOptList
      cases hb : B.select_expression with
      | none => rfl
      | some l => cases l <;> rfl
    · show pyOrOptObj B.data_source A.data_source = _
      unfold pyOrOptObj
      cases B.data_source <;> rfl
    · show pyOrOptStr B.friendly_name A.friendly_name = _
      unfold pyOrOptStr
      cases B.friendly_name <;> rfl
    · show pyOrOptStr B.description A.description = _
      unfold pyOrOptStr
      cases B.description <;> rfl
    · show (B.bigger_is_better || A.bigger_is_better) = _
      cases B.bigger_is_better <;> rfl
    · show pyOrOptList B.analysis_bases A.analysis_bases = _
      unfold pyOrOptList
      cases hb : B.analysis_bases with
      | none => rfl
      | some l => cases l <;> rfl
    · show pyOrOptStr B.type A.type = _
      unfold pyOrOptStr
      cases B.type <;> rfl
    · show pyOrOptStr B.category A.category = _
      unfold pyOrOptStr
      cases B.category <;> rfl
  · refine ⟨?_, ?_, ?_, ?_, ?_, ?_, ?_, ?_, ?_, ?_⟩
    · show pyOrOptStr B.enrollment_query A.enrollment_query = _
      unfold pyOrOptStr
      cases B.enrollment_query <;> rfl
    · show pyOrOptInt B.enrollment_period A.enrollment_period = _
      unfold pyOrOptInt
      cases B.enrollment_period <;> rfl
    · show pyOrOptStr B.reference_branch A.reference_branch = _
      unfold pyOrOptStr
      cases B.reference_branch <;> rfl
    · show pyOrOptStr B.start_date A.start_date = _
      unfold pyOrOptStr
      cases B.start_date <;> rfl
    · show pyOrOptStr B.end_date A.end_date = _
      unfold pyOrOptStr
      cases B.end_date <;> rfl
    · show pyOrList B.segments A.segments = _
      unfold pyOrList
      cases B.segments <;> rfl
    · show (B.skip || A.skip) = _
      cases B.skip <;> rfl
    · show pyOrOptObj B.exposure_signal A.exposure_signal = _
      unfold pyOrOptObj
      cases B.exposure_signal <;> rfl
    · show (B.is_private || A.is_private) = _
      cases B.is_private <;> rfl
    · show pyOrOptStr B.dataset_id A.dataset_id = _
      unfold pyOrOptStr
      cases B.dataset_id <;> rfl
  · refine ⟨?_, ?_, ?_, ?_, ?_, ?_, ?_, ?_, ?_⟩
    · show pyOrStr B.name A.name = _
      unfold pyOrStr
      cases hb : decide (B.name = "") <;>
        simp_all [decide_eq_true_eq]
    · show pyOrOptList B.from_expression A.from_expression = _
      unfold pyOrOptList
      cases hb : B.from_expression with
      | none => rfl
      | some l => cases l <;> rfl
    · show pyOrOptStr B.experiments_column_type A.experiments_column_type = _
      unfold pyOrOptStr
      cases B.experiments_column_type <;> rfl
    · show pyOrOptStr B.client_id_column A.client_id_column = _
      unfold pyOrOptStr
      cases B.client_id_column <;> rfl
    · show pyOrOptStr B.submission_date_column A.submission_date_column = _
      unfold pyOrOptStr
      cases B.submission_date_column <;> rfl
    · show pyOrOptStr B.default_dataset A.default_dataset = _
      unfold pyOrOptStr
      cases B.default_dataset <;> rfl
    · show pyOrOptStr B.build_id_column A.build_id_column = _
      unfold pyOrOptStr
      cases B.build_id_column <;> rfl
    · show pyOrOptStr B.friendly_name A.friendly_name = _
      unfold pyOrOptStr
      cases B.friendly_name <;> rfl
    · show pyOrOptStr B.description A.description = _
      unfold pyOrOptStr
      cases B.description <;> rfl

/-- Receiver-side definition for the concrete keyed-merge instance: the
named definition sets only `select_expression`. -/
def c4Receiver : MetricDefinition :=
  { name := "x", select_expression := some [.lit "1"] }

/-- Donor-side definition for the concrete keyed-merge instance: the same
name sets only `data_source`. -/
def c4Donor : MetricDefinition :=
  { name := "x", data_source := some ⟨"eggs"⟩ }

/-- C4: merging keyed collections of named definitions merges each key
present in both recursively field-by-field (donor wins only per set
field), inserts donor-only keys unchanged, keeps receiver-only keys; in
particular a receiver definition setting only `select_expression` merged
with a same-named donor setting only `data_source` yields one definition
with both set. -/
theorem keyed_merge_per_field :
    (∀ (a b : MetricsSpec) (k : String),
      List.lookup k ((a.merge b).definitions) =
        match List.lookup k a.definitions, List.lookup k b.definitions with
        | some d1, some d2 => some (d1.merge d2)
        | some d1, none => some d1
        | none, some d2 => some d2
        | none, none => none) ∧
    (∀ (a b : DataSourcesSpec) (k : String),
      List.lookup k ((a.merge b).definitions) =
        match List.lookup k a.definitions, List.lookup k b.definitions with
        | some d1, some d2 => some (d1.merge d2)
        | some d1, none => some d1
        | none, some d2 => some d2
        | none, none => none) ∧
    List.lookup "x"
        ((MetricsSpec.merge { definitions := [("x", c4Receiver)] }
          { definitions := [("x", c4Donor)] }).definitions) =
      some { name := "x", select_expression := some [.lit "1"],
             data_source := some ⟨"eggs"⟩ } := by
  refine ⟨fun a b k => ?_, fun a b k => ?_, by decide⟩
  · rw [show (a.merge b).definitions
        = mergeKeyedDefs a.definitions b.definitions MetricDefinition.merge
      from rfl, lookup_mergeKeyedDefs]
    cases List.lookup k a.definitions <;>
      cases List.lookup k b.definitions <;> rfl
  · rw [show (a.merge b).definitions
        = mergeKeyedDefs a.definitions b.definitions DataSourceDefinition.merge
      from rfl, lookup_mergeKeyedDefs]
    cases List.lookup k a.definitions <;>
      cases List.lookup k b.definitions <;> rfl

theorem lookup_mapValues {α β : Type} (g : α → β) (l : List (String × α))
    (k : String) :
    List.lookup k (l.map (fun p => (p.1, g p.2))) =
      (List.lookup k l).map g := by
  induction l with
  | nil => simp [lookup_nil]
  | cons p l ih =>
    obtain ⟨a, b⟩ := p
    cases hka : k == a <;> simp [lookup_cons, hka, ih]

/-- C5: a select-expression template mentioning parameters is rendered
against the formatted parameters; a referenced parameter with
`distinct_by_branch` true and a mapping value is substituted by
`CASE e.branch WHEN "<branch>" THEN "<value>" … END` built over the
mapping in stored order, and any other parameter by its value directly. -/
theorem generate_select_expression_param_rendering :
    (∀ (defs : List (String × ParameterDefinition)) (t : SelectTemplate)
       (configs : ConfigCollection),
      (templateMentionsParameters t = true →
        MetricDefinition.generate_select_expression defs t configs =
          renderTemplate t (formattedParams defs)) ∧
      (templateMentionsParameters t = false →
        MetricDefinition.generate_select_expression defs t configs =
          renderTemplate t [])) ∧
    (∀ (defs : List (String × ParameterDefinition)) (p : String)
       (pd : ParameterDefinition), List.lookup p defs = some pd →
      List.lookup p (formattedParams defs) =
        some (match pd.distinct_by_branch, pd.value with
          | true, some (.branches m) =>
            "CASE e.branch "
            ++ String.intercalate " " (m.map (fun bv =>
                 "WHEN \"" ++ bv.1 ++ "\" THEN \"" ++ bv.2 ++ "\""))
            ++ " END"
          | _, v => scalarRender v)) := by
  constructor
  · intro defs t configs
    constructor
    · intro h
      unfold MetricDefinition.generate_select_expression
      simp [h]
    · intro h
      unfold MetricDefinition.generate_select_expression
      simp [h]
  · intro defs p pd h
    have hmap :
        List.lookup p (formattedParams defs) =
          (List.lookup p defs).map formatOneParam := by
      unfold formattedParams
      exact lookup_mapValues formatOneParam defs p
    rw [hmap, h]
    obtain ⟨n, v, dflt, db, fn, desc⟩ := pd
    cases db <;> cases v with
    | none => rfl
    | some pv => cases pv <;> rfl

/-- The parameter definitions of the C5 witness: one parameter with
`distinct_by_branch` true and the per-branch value of spec §8. -/
def c5Defs : List (String × ParameterDefinition) :=
  [("id", { name := "id", value := some (.branches [("branch_1", "1")]),
            distinct_by_branch := true })]

/-- The C5 witness template: `COUNTIF(sample_id = {{parameters.id}})`. -/
def c5Template : SelectTemplate :=
  [.lit "COUNTIF(sample_id = ", .param "id", .lit ")"]

theorem generate_select_expression_param_rendering_witness :
    templateMentionsParameters c5Template = true ∧
    MetricDefinition.generate_select_expression c5Defs c5Template {} =
      renderTemplate c5Template (formattedParams c5Defs) ∧
    List.lookup "id" (formattedParams c5Defs) =
      some ("CASE e.branch WHEN \"branch_1\" THEN \"1\" END") ∧
    MetricDefinition.generate_select_expression c5Defs c5Template {} =
      .ok "COUNTIF(sample_id = CASE e.branch WHEN \"branch_1\" THEN \"1\" END)" :=
  ⟨by decide,
   (generate_select_expression_param_rendering.1 c5Defs c5Template {}).1
     (by decide),
   (generate_select_expression_param_rendering.2 c5Defs "id"
       { name := "id", value := some (.branches [("branch_1", "1")]),
         distinct_by_branch := true } (by decide)).trans (by decide),
   by decide⟩

theorem format_eq_text_of_no_placeholder (e : FromExpression)
    (h : hasDatasetPlaceholder e = false) (d : String) :
    FromExpression.format e d = FromExpression.text e := by
  induction e with
  | nil => rfl
  | cons p rest ih =>
    cases p with
    | lit s =>
      have hr : hasDatasetPlaceholder rest = false := by
        simpa [hasDatasetPlaceholder] using h
      simp only [FromExpression.format, FromExpression.text]
      rw [ih hr]
    | dataset => simp [hasDatasetPlaceholder] at h

/-- C6: expanding a data source's `from_expression` returns it unchanged
when it has no `{dataset}` placeholder; with the placeholder the explicit
dataset is substituted, falling back to `default_dataset` when none (or an
empty one) is supplied; with the placeholder and neither available the
expansion fails with a `ValueError` instead of producing a
partially-substituted expression. -/
theorem from_expr_for_rules (ds : DataSource) (dataset : Option String) :
    (hasDatasetPlaceholder ds.from_expression = false →
      ds.from_expr_for dataset = .ok (FromExpression.text ds.from_expression)) ∧
    (∀ d, pyOrOptStr dataset ds.default_dataset = some d →
      ds.from_expr_for dataset =
        .ok (FromExpression.format ds.from_expression d)) ∧
    (∀ d, dataset = some d → d ≠ "" →
      pyOrOptStr dataset ds.default_dataset = some d) ∧
    ((dataset = none ∨ dataset = some "") →
      pyOrOptStr dataset ds.default_dataset = ds.default_dataset) ∧
    (hasDatasetPlaceholder ds.from_expression = true →
      pyOrOptStr dataset ds.default_dataset = none →
      ds.from_expr_for dataset = .error (.valueError (ds.name
        ++ ": from_expression contains a dataset template but no value was provided."))) := by
  refine ⟨?_, ?_, ?_, ?_, ?_⟩
  · intro h
    unfold DataSource.from_expr_for
    cases he : pyOrOptStr dataset ds.default_dataset with
    | none => simp [h]
    | some d => simp [format_eq_text_of_no_placeholder ds.from_expression h d]
  · intro d hd
    unfold DataSource.from_expr_for
    simp [hd]
  · intro d hd hne
    subst hd
    simp [pyOrOptStr, hne]
  · intro h
    rcases h with h | h <;> subst h <;> simp [pyOrOptStr]
  · intro hph he
    unfold DataSource.from_expr_for
    simp [he, hph]

/-- The C6 witness data source: a templated `from_expression` with a
default dataset. -/
def c6Source : DataSource :=
  { name := "clients_daily", from_expression := [.lit "moz.tel_", .dataset],
    default_dataset := some "dd" }

theorem from_expr_for_rules_witness :
    c6Source.from_expr_for (some "xx") =
      .ok (FromExpression.format c6Source.from_expression "xx") ∧
    FromExpression.format c6Source.from_expression "xx" = "moz.tel_xx" ∧
    c6Source.from_expr_for none =
      .ok (FromExpression.format c6Source.from_expression "dd") ∧
    ({ c6Source with default_dataset := none } : DataSource).from_expr_for none =
      .error (.valueError
        ("clients_daily: from_expression contains a dataset template but no value was provided.")) ∧
    ({ c6Source with from_expression := [.lit "moz.main"] }
        : DataSource).from_expr_for none =
      .ok (FromExpression.text [.lit "moz.main"]) :=
  ⟨(from_expr_for_rules c6Source (some "xx")).2.1 "xx" (by decide),
   by decide,
   (from_expr_for_rules c6Source none).2.1 "dd" (by decide),
   (from_expr_for_rules { c6Source with default_dataset := none } none).2.2.2.2
     (by decide) (by decide),
   (from_expr_for_rules { c6Source with from_expression := [.lit "moz.main"] }
     none).1 (by decide)⟩

/-- A concrete fact record used by the witnesses. -/
def wExperiment : Experiment :=
  { experimenter_slug := none, normandy_slug := some "test-experiment",
    type := "v6", status := some "Live", branches := [],
    start_date := some "2024-01-01", end_date := none,
    proposed_enrollment := some 14, reference_branch := some "control",
    is_high_population := false, app_name := "app" }

/-- A concrete experiment configuration used by the witnesses. -/
def wConf : ExperimentConfiguration :=
  { experiment_spec := {}, experiment := wExperiment }

/-- A concrete local spec used by the witnesses: a self-contained metric
"spam" on data source "eggs", referenced twice in the weekly period. -/
def wSpec : AnalysisSpec :=
  { metrics :=
      { weekly := [⟨"spam"⟩, ⟨"spam"⟩],
        definitions := [("spam",
          { name := "spam", select_expression := some [.lit "1"],
            data_source := some ⟨"eggs"⟩,
            statistics := some [("mean", { params := [("num_samples", .int 10)] })] })] },
    data_sources :=
      { definitions := [("eggs",
          { name := "eggs", from_expression := some [.lit "england.camelot"] })] } }

/-- C10: a successful `MetricDefinition.resolve` returns a non-empty
summary list; a self-contained definition with no statistics mapping
raises a `ValueError` naming the metric (once its select expression
renders and its data source resolves); an empty statistics mapping raises
the no-statistical-treatment `ValueError`; hence a resolved metric always
carries at least one statistic. -/
theorem metricDefinition_resolve_nonempty :
    (∀ (self : MetricDefinition) (spec : AnalysisSpec)
       (conf : ExperimentConfiguration) (configs : ConfigCollection)
       (fuel : Nat) (res : List Summary) (cfg : ConfigCollection),
      MetricDefinition.resolve self spec conf configs fuel = .ok (res, cfg) →
      res ≠ []) ∧
    (∀ (self : MetricDefinition) (spec : AnalysisSpec)
       (conf : ExperimentConfiguration) (configs : ConfigCollection)
       (fuel : Nat) (tmpl : SelectTemplate) (dsr : DataSourceReference)
       (sel : String) (dsrc : DataSource),
      self.select_expression = some tmpl → self.data_source = some dsr →
      self.statistics = none →
      MetricDefinition.generate_select_expression
        spec.parameters.definitions tmpl configs = .ok sel →
      dsr.resolve spec conf configs = .ok dsrc →
      MetricDefinition.resolve self spec conf configs (fuel + 1) =
        .error (.valueError ("No statistical treatment defined for metric "
          ++ squote ++ self.name ++ squote))) ∧
    (∀ (self : MetricDefinition) (spec : AnalysisSpec)
       (conf : ExperimentConfiguration) (configs : ConfigCollection)
       (fuel : Nat) (tmpl : SelectTemplate) (dsr : DataSourceReference)
       (sel : String) (dsrc : DataSource),
      self.select_expression = some tmpl → self.data_source = some dsr →
      self.statistics = some [] →
      MetricDefinition.generate_select_expression
        spec.parameters.definitions tmpl configs = .ok sel →
      dsr.resolve spec conf configs = .ok dsrc →
      MetricDefinition.resolve self spec conf configs (fuel + 1) =
        .error (.valueError ("Metric " ++ self.name
          ++ " has no statistical treatment defined."))) := by
  refine ⟨?_, ?_, ?_⟩
  · intro self spec conf configs fuel res cfg h
    cases fuel with
    | zero => exact absurd h (by simp [MetricDefinition.resolve])
    | succ fuel =>
      unfold MetricDefinition.resolve at h
      repeat' split at h
      all_goals
        first
        | (simp_all; done)
        | (injection h with h1; injection h1 with h2 h3; intro hres;
           rw [hres] at h2; exact List.noConfusion h2)
  · intro self spec conf configs fuel tmpl dsr sel dsrc h1 h2 h3 h4 h5
    unfold MetricDefinition.resolve
    simp [h1, h2, h3, h4, h5]
  · intro self spec conf configs fuel tmpl dsr sel dsrc h1 h2 h3 h4 h5
    unfold MetricDefinition.resolve
    simp [h1, h2, h3, h4, h5]

/-- The C10 witness metric definition with no statistics mapping. -/
def w10NoStats : MetricDefinition :=
  { name := "spam", select_expression := some [.lit "1"],
    data_source := some ⟨"eggs"⟩ }

theorem metricDefinition_resolve_nonempty_witness :
    (∀ res cfg,
      MetricDefinition.resolve
          { name := "spam", select_expression := some [.lit "1"],
            data_source := some ⟨"eggs"⟩,
            statistics := some [("mean", { params := [("num_samples", .int 10)] })] }
          wSpec wConf {} 3 = .ok (res, cfg) →
      res ≠ []) ∧
    MetricDefinition.resolve w10NoStats wSpec wConf {} 3 =
      .error (.valueError ("No statistical treatment defined for metric "
        ++ squote ++ "spam" ++ squote)) ∧
    MetricDefinition.resolve { w10NoStats with statistics := some [] }
        wSpec wConf {} 3 =
      .error (.valueError "Metric spam has no statistical treatment defined.") :=
  ⟨fun res cfg h =>
    metricDefinition_resolve_nonempty.1 _ wSpec wConf {} 3 res cfg h,
   by
    have h := metricDefinition_resolve_nonempty.2.1 w10NoStats wSpec wConf {}
      2 [.lit "1"] ⟨"eggs"⟩ "1"
      { name := "eggs", from_expression := [.lit "england.camelot"] }
      (by decide) (by decide) (by decide) (by decide) (by decide)
    exact h.trans (by decide),
   by
    have h := metricDefinition_resolve_nonempty.2.2
      { w10NoStats with statistics := some [] } wSpec wConf {}
      2 [.lit "1"] ⟨"eggs"⟩ "1"
      { name := "eggs", from_expression := [.lit "england.camelot"] }
      (by decide) (by decide) (by decide) (by decide) (by decide)
    exact h.trans (by decide)⟩

/-- C8 counterexample: constructing an `ExperimentSpec` with
`is_private = true` and no `dataset_id` raises at construction (the attrs
validator `_validate_dataset_id` runs in `__init__`), so the dataset-id
requirement is not checked only when resolving/validating. -/
theorem experimentSpec_private_construction_counterexample :
    ExperimentSpec.make none none none none none [] false none true none =
      .error (.valueError
        "dataset_id must be set to a custom dataset for private experiments") := by
  decide

/-- C8 (amended): validating a Config against a catalog raises the
private-dataset `ValueError` exactly when the config is private and the
resolved configuration has no `dataset_id` (given that the merged spec
resolves), and the same requirement is additionally enforced when an
`ExperimentSpec` is constructed with `is_private` true and no
`dataset_id` (after its date validators pass). -/
theorem private_dataset_id_validation :
    (∀ (cfg : Config) (configs : ConfigCollection) (experiment : Experiment)
       (fuel : Nat) (resolved : AnalysisConfiguration),
      ((AnalysisSpec.default_for_experiment experiment configs).merge
          cfg.spec).resolve experiment configs fuel = .ok resolved →
      cfg.validate configs experiment fuel =
        (if cfg.is_private && resolved.experiment.dataset_id.isNone then
          .error (.valueError
            "dataset_id needs to be explicitly set for private experiments")
        else .ok ())) ∧
    (∀ (eq : Option String) (ep : Option Int) (rb sd ed : Option String)
       (seg : List SegmentReference) (sk : Bool)
       (es : Option ExposureSignalDefinition) (sdP edP : Option String),
      parse_date sd = .ok sdP → parse_date ed = .ok edP →
      ExperimentSpec.make eq ep rb sd ed seg sk es true none =
        .error (.valueError
          "dataset_id must be set to a custom dataset for private experiments")) := by
  constructor
  · intro cfg configs experiment fuel resolved h
    simp only [Config.validate]
    rw [h]
  · intro eq ep rb sd ed seg sk es sdP edP h1 h2
    unfold ExperimentSpec.make
    rw [h1, h2]
    simp

/-- The C8 witness config: private, with an explicit dataset id in its
spec. -/
def w8Private : Config :=
  { slug := "private-experiment", last_modified := 0, is_private := true,
    spec := { experiment := { is_private := true, dataset_id := some "custom" } } }

theorem private_dataset_id_validation_witness :
    w8Private.validate {} wExperiment 3 = .ok () ∧
    ({ w8Private with spec := {} } : Config).validate {} wExperiment 3 =
      .error (.valueError
        "dataset_id needs to be explicitly set for private experiments") ∧
    ExperimentSpec.make none none none (some "2024-01-01") none [] false none
        true none =
      .error (.valueError
        "dataset_id must be set to a custom dataset for private experiments") :=
  ⟨by
    have h := private_dataset_id_validation.1 w8Private {} wExperiment 3
      { experiment :=
          { experiment_spec := { is_private := true, dataset_id := some "custom" },
            experiment := wExperiment },
        metrics := [(.day, []), (.week, []), (.days28, []), (.overall, [])] }
      (by decide)
    exact h.trans (by decide),
   by
    have h := private_dataset_id_validation.1 ({ w8Private with spec := {} })
      {} wExperiment 3
      { experiment := { experiment_spec := {}, experiment := wExperiment },
        metrics := [(.day, []), (.week, []), (.days28, []), (.overall, [])] }
      (by decide)
    exact h.trans (by decide),
   private_dataset_id_validation.2 none none none (some "2024-01-01") none []
     false none (some "2024-01-01") none (by decide) (by decide)⟩

/-- The "spam" metric definition stored in `wSpec` (named for the
witnesses). -/
def wSpamDef : MetricDefinition :=
  { name := "spam", select_expression := some [.lit "1"],
    data_source := some ⟨"eggs"⟩,
    statistics := some [("mean", { params := [("num_samples", .int 10)] })] }

/-- A partial local metric definition: present in the local spec by name,
but with no `select_expression`/`data_source` of its own. -/
def wPartialM : MetricDefinition :=
  { name := "m", statistics := some [("count", {})] }

/-- A local spec whose keyed metric definitions contain "m" (partially). -/
def wLocalSpecM : AnalysisSpec :=
  { metrics := { definitions := [("m", wPartialM)] } }

/-- The complete catalog definition of metric "m" for platform "app". -/
def wCatalogDefM : MetricDefinition :=
  { name := "m", select_expression := some [.lit "1"],
    data_source := some ⟨"eggs"⟩,
    statistics := some [("mean", { params := [("num_samples", .int 10)] })] }

/-- A catalog carrying metric "m" and data source "eggs" for platform
"app". -/
def wCatalogM : ConfigCollection :=
  { definitions := [{ slug := "app", platform := "app", last_modified := 0,
                      spec :=
                        { metrics := { definitions := [("m", wCatalogDefM)] },
                          data_sources :=
                            { definitions := [("eggs",
                                { name := "eggs",
                                  from_expression := some [.lit "england.camelot"] })] } } }] }

/-- C2 counterexample: metric "m" is present in the local spec's keyed
definitions, yet resolving the reference consults the Catalog — with an
empty Catalog it raises `DefinitionNotFound` (for the very name that is
locally present), and the result differs between two Catalogs, so a
locally satisfied reference does trigger a Catalog lookup. -/
theorem reference_local_hit_queries_catalog_counterexample :
    (List.lookup "m" wLocalSpecM.metrics.definitions).isSome = true ∧
    MetricReference.resolve ⟨"m"⟩ wLocalSpecM wConf {} 3 =
      .error (.definitionNotFound
        "No default definition found for referenced metric m") ∧
    MetricReference.resolve ⟨"m"⟩ wLocalSpecM wConf wCatalogM 3 ≠
      MetricReference.resolve ⟨"m"⟩ wLocalSpecM wConf {} 3 := by
  decide

/-- C2 (amended): reference dispatch searches the local spec first and only
on absence queries the Catalog scoped to the experiment's platform, and a
reference absent from both raises `DefinitionNotFound` carrying the
reference name — references are never silently dropped.  A locally
satisfied data-source reference never consults the Catalog (the result is
Catalog-independent); a locally satisfied metric reference dispatches to
the local definition, which may itself consult the Catalog when it lacks
`select_expression` or `data_source` (see the counterexample). -/
theorem reference_resolution_search_order :
    (∀ (name : String) (spec : AnalysisSpec) (conf : ExperimentConfiguration)
       (configs : ConfigCollection) (dsd : DataSourceDefinition),
      List.lookup name spec.data_sources.definitions = some dsd →
      DataSourceReference.resolve ⟨name⟩ spec conf configs = dsd.resolveDef ∧
      ∀ configs' : ConfigCollection,
        DataSourceReference.resolve ⟨name⟩ spec conf configs =
          DataSourceReference.resolve ⟨name⟩ spec conf configs') ∧
    (∀ (name : String) (spec : AnalysisSpec) (conf : ExperimentConfiguration)
       (configs : ConfigCollection) (dsd : DataSourceDefinition),
      List.lookup name spec.data_sources.definitions = none →
      configs.get_data_source_definition name conf.app_name = some dsd →
      DataSourceReference.resolve ⟨name⟩ spec conf configs = dsd.resolveDef) ∧
    (∀ (name : String) (spec : AnalysisSpec) (conf : ExperimentConfiguration)
       (configs : ConfigCollection),
      List.lookup name spec.data_sources.definitions = none →
      configs.get_data_source_definition name conf.app_name = none →
      DataSourceReference.resolve ⟨name⟩ spec conf configs =
        .error (.definitionNotFound ("No default definition for data source "
          ++ squote ++ name ++ squote ++ " found"))) ∧
    (∀ (name : String) (spec : AnalysisSpec) (conf : ExperimentConfiguration)
       (configs : ConfigCollection) (fuel : Nat) (md : MetricDefinition),
      List.lookup name spec.metrics.definitions = some md →
      MetricReference.resolve ⟨name⟩ spec conf configs fuel =
        md.resolve spec conf configs fuel) ∧
    (∀ (name : String) (spec : AnalysisSpec) (conf : ExperimentConfiguration)
       (configs : ConfigCollection) (fuel : Nat) (md : MetricDefinition),
      List.lookup name spec.metrics.definitions = none →
      configs.get_metric_definition name conf.app_name = some md →
      MetricReference.resolve ⟨name⟩ spec conf configs fuel =
        md.resolve spec conf configs fuel) ∧
    (∀ (name : String) (spec : AnalysisSpec) (conf : ExperimentConfiguration)
       (configs : ConfigCollection) (fuel : Nat),
      List.lookup name spec.metrics.definitions = none →
      configs.get_metric_definition name conf.app_name = none →
      MetricReference.resolve ⟨name⟩ spec conf configs fuel =
        .error (.definitionNotFound ("Could not locate metric " ++ name))) := by
  refine ⟨?_, ?_, ?_, ?_, ?_, ?_⟩
  · intro name spec conf configs dsd h
    constructor
    · unfold DataSourceReference.resolve
      simp [h]
    · intro configs'
      unfold DataSourceReference.resolve
      simp [h]
  · intro name spec conf configs dsd h1 h2
    unfold DataSourceReference.resolve
    simp [h1, h2]
  · intro name spec conf configs h1 h2
    unfold DataSourceReference.resolve
    simp [h1, h2]
  · intro name spec conf configs fuel md h
    unfold MetricReference.resolve
    simp [h]
  · intro name spec conf configs fuel md h1 h2
    unfold MetricReference.resolve
    simp [h1, h2]
  · intro name spec conf configs fuel h1 h2
    unfold MetricReference.resolve
    simp [h1, h2]

theorem reference_resolution_search_order_witness :
    DataSourceReference.resolve ⟨"eggs"⟩ wSpec wConf wCatalogM =
      DataSourceReference.resolve ⟨"eggs"⟩ wSpec wConf {} ∧
    DataSourceReference.resolve ⟨"nope"⟩ wSpec wConf {} =
      .error (.definitionNotFound ("No default definition for data source "
        ++ squote ++ "nope" ++ squote ++ " found")) ∧
    MetricReference.resolve ⟨"spam"⟩ wSpec wConf wCatalogM 3 =
      MetricDefinition.resolve wSpamDef wSpec wConf wCatalogM 3 ∧
    MetricReference.resolve ⟨"nope"⟩ wSpec wConf {} 3 =
      .error (.definitionNotFound ("Could not locate metric " ++ "nope")) :=
  ⟨((reference_resolution_search_order.1 "eggs" wSpec wConf wCatalogM
      { name := "eggs", from_expression := some [.lit "england.camelot"] }
      (by decide)).2 {}),
   reference_resolution_search_order.2.2.1 "nope" wSpec wConf {}
     (by decide) (by decide),
   reference_resolution_search_order.2.2.2.1 "spam" wSpec wConf wCatalogM 3
     wSpamDef (by decide),
   reference_resolution_search_order.2.2.2.2.2 "nope" wSpec wConf {} 3
     (by decide) (by decide)⟩

theorem eraseStats_statsUpdate (self md : MetricDefinition) :
    (statsUpdate self md).eraseStats = md.eraseStats :=
  rfl

theorem modifyFirstDef_erase (slug : String)
    (upd : MetricDefinition → MetricDefinition)
    (h : ∀ m, (upd m).eraseStats = m.eraseStats) :
    ∀ (l l' : List (String × MetricDefinition)),
      modifyFirstDef l slug upd = some l' →
      l'.map (fun p => (p.1, p.2.eraseStats)) =
        l.map (fun p => (p.1, p.2.eraseStats)) := by
  intro l
  induction l with
  | nil => intro l' h'; exact Option.noConfusion h'
  | cons p rest ih =>
    intro l' h'
    unfold modifyFirstDef at h'
    split at h'
    · injection h' with h''
      subst h''
      simp [h]
    · cases hm : modifyFirstDef rest slug upd with
      | none => rw [hm] at h'; exact Option.noConfusion h'
      | some r =>
        rw [hm] at h'
        injection h' with h''
        subst h''
        simp [ih r hm]

theorem modifyDefs_erase (slug app : String)
    (upd : MetricDefinition → MetricDefinition)
    (h : ∀ m, (upd m).eraseStats = m.eraseStats) :
    ∀ ds : List DefinitionConfig,
      (modifyDefs ds slug app upd).map DefinitionConfig.eraseStats =
        ds.map DefinitionConfig.eraseStats := by
  intro ds
  induction ds with
  | nil => rfl
  | cons d rest ih =>
    unfold modifyDefs
    split
    · split
      · rename_i defs hdefs
        simp only [List.map_cons]
        have he := modifyFirstDef_erase slug upd h _ _ hdefs
        simp [DefinitionConfig.eraseStats, he]
      · simp [ih]
    · simp [ih]

theorem modifyMetricDefinition_erase (cc : ConfigCollection)
    (slug app : String) (upd : MetricDefinition → MetricDefinition)
    (h : ∀ m, (upd m).eraseStats = m.eraseStats) :
    (cc.modifyMetricDefinition slug app upd).eraseMetricStats =
      cc.eraseMetricStats := by
  unfold ConfigCollection.modifyMetricDefinition ConfigCollection.eraseMetricStats
  simp [modifyDefs_erase slug app upd h]

theorem resolve_preserves_catalog_mod_stats :
    ∀ (fuel : Nat) (self : MetricDefinition) (spec : AnalysisSpec)
      (conf : ExperimentConfiguration) (configs : ConfigCollection)
      (res : List Summary) (cfg : ConfigCollection),
      MetricDefinition.resolve self spec conf configs fuel = .ok (res, cfg) →
      cfg.eraseMetricStats = configs.eraseMetricStats := by
  intro fuel
  induction fuel with
  | zero =>
    intro self spec conf configs res cfg h
    exact absurd h (by simp [MetricDefinition.resolve])
  | succ fuel ih =>
    intro self spec conf configs res cfg h
    unfold MetricDefinition.resolve at h
    repeat' split at h
    all_goals first
      | exact Except.noConfusion h
      | (injection h with h1; injection h1 with h2 h3; subst h3;
         first
           | rfl
           | exact (ih _ _ _ _ _ _ (by assumption)).trans
               (modifyMetricDefinition_erase configs self.name conf.app_name
                 (statsUpdate self) (fun md => rfl)))

theorem metricReference_resolve_erase (r : MetricReference)
    (spec : AnalysisSpec) (conf : ExperimentConfiguration)
    (configs : ConfigCollection) (fuel : Nat) (res : List Summary)
    (cfg : ConfigCollection)
    (h : r.resolve spec conf configs fuel = .ok (res, cfg)) :
    cfg.eraseMetricStats = configs.eraseMetricStats := by
  unfold MetricReference.resolve at h
  split at h
  · exact resolve_preserves_catalog_mod_stats fuel _ spec conf configs res cfg h
  · split at h
    · exact resolve_preserves_catalog_mod_stats fuel _ spec conf configs res cfg h
    · exact Except.noConfusion h

theorem resolveSummaryList_erase :
    ∀ (refs : List MetricReference) (spec : AnalysisSpec)
      (conf : ExperimentConfiguration) (configs : ConfigCollection)
      (fuel : Nat) (res : List Summary) (cfg : ConfigCollection),
      resolveSummaryList refs spec conf configs fuel = .ok (res, cfg) →
      cfg.eraseMetricStats = configs.eraseMetricStats := by
  intro refs
  induction refs with
  | nil =>
    intro spec conf configs fuel res cfg h
    unfold resolveSummaryList at h
    injection h with h1
    injection h1 with h2 h3
    subst h3
    rfl
  | cons r rest ih =>
    intro spec conf configs fuel res cfg h
    unfold resolveSummaryList at h
    split at h
    · exact Except.noConfusion h
    · rename_i s cfg1 heq1
      split at h
      · exact Except.noConfusion h
      · rename_i srest cfg2 heq2
        injection h with h1
        injection h1 with h2 h3
        subst h3
        exact (ih spec conf cfg1 fuel srest cfg2 heq2).trans
          (metricReference_resolve_erase r spec conf configs fuel s cfg1 heq1)

theorem metricsSpec_resolvePeriod_erase (self : MetricsSpec)
    (period : AnalysisPeriod) (spec : AnalysisSpec)
    (conf : ExperimentConfiguration) (configs : ConfigCollection)
    (fuel : Nat) (res : List Summary) (cfg : ConfigCollection)
    (h : self.resolvePeriod period spec conf configs fuel = .ok (res, cfg)) :
    cfg.eraseMetricStats = configs.eraseMetricStats := by
  unfold MetricsSpec.resolvePeriod at h
  split at h
  · exact Except.noConfusion h
  · rename_i summaries cfg1 heq
    injection h with h1
    injection h1 with h2 h3
    subst h3
    exact resolveSummaryList_erase _ spec conf configs fuel summaries cfg1 heq

/-- The Catalog state after the C9 resolution: the stored definition of
"m" had its `statistics` and `analysis_bases` overwritten in place. -/
def w9After : ConfigCollection :=
  wCatalogM.modifyMetricDefinition "m" "app" (statsUpdate wPartialM)

/-- The single summary the C9 resolution produces. -/
def w9Summary : Summary :=
  { metric := { name := "m",
                data_source := { name := "eggs",
                                 from_expression := [.lit "england.camelot"] },
                select_expression := "1" },
    statistic := { name := "count", params := [] } }

/-- C9 counterexample: resolving the partial local definition of "m"
against `wCatalogM` succeeds but returns a Catalog different from the one
passed in — the stored definition's statistics were overwritten in place
("mean" became "count"), so resolution is not read-only with respect to
the Catalog and a second resolution observes different Catalog contents. -/
theorem resolve_mutates_catalog_counterexample :
    MetricDefinition.resolve wPartialM wLocalSpecM wConf wCatalogM 3 =
      .ok ([w9Summary], w9After) ∧
    w9After ≠ wCatalogM ∧
    w9After.get_metric_definition "m" "app" ≠
      wCatalogM.get_metric_definition "m" "app" := by
  decide

/-- C9 (amended): resolution may write into the Catalog, but only the
`statistics` and `analysis_bases` fields of stored metric definitions
(the in-place assignment performed when a definition lacking
`select_expression` or `data_source` falls back to the Catalog, exhibited
by the counterexample); everything else — configs, outcomes, defaults,
functions, data-source definitions, the definition slugs/platforms and
every other metric-definition field — is left unchanged by
`MetricDefinition.resolve` and `MetricsSpec.resolve`. -/
theorem resolve_catalog_frame :
    (∀ (self : MetricDefinition) (spec : AnalysisSpec)
       (conf : ExperimentConfiguration) (configs : ConfigCollection)
       (fuel : Nat) (res : List Summary) (cfg : ConfigCollection),
      MetricDefinition.resolve self spec conf configs fuel = .ok (res, cfg) →
      cfg.eraseMetricStats = configs.eraseMetricStats) ∧
    (∀ (ms : MetricsSpec) (spec : AnalysisSpec)
       (conf : ExperimentConfiguration) (configs : ConfigCollection)
       (fuel : Nat) (out : List (AnalysisPeriod × List Summary))
       (cfg : ConfigCollection),
      MetricsSpec.resolve ms spec conf configs fuel = .ok (out, cfg) →
      cfg.eraseMetricStats = configs.eraseMetricStats) := by
  constructor
  · intro self spec conf configs fuel res cfg h
    exact resolve_preserves_catalog_mod_stats fuel self spec conf configs res cfg h
  · intro ms spec conf configs fuel out cfg h
    unfold MetricsSpec.resolve at h
    split at h
    · exact Except.noConfusion h
    · rename_i sDay c1 h1
      split at h
      · exact Except.noConfusion h
      · rename_i sWeek c2 h2
        split at h
        · exact Except.noConfusion h
        · rename_i s28 c3 h3
          split at h
          · exact Except.noConfusion h
          · rename_i sOv c4 h4
            injection h with hp
            injection hp with hout hcfg
            subst hcfg
            exact (((metricsSpec_resolvePeriod_erase ms .overall spec conf c3
                fuel sOv c4 h4).trans
              (metricsSpec_resolvePeriod_erase ms .days28 spec conf c2 fuel
                s28 c3 h3)).trans
              (metricsSpec_resolvePeriod_erase ms .week spec conf c1 fuel
                sWeek c2 h2)).trans
              (metricsSpec_resolvePeriod_erase ms .day spec conf configs fuel
                sDay c1 h1)

theorem resolve_catalog_frame_witness :
    MetricDefinition.resolve wPartialM wLocalSpecM wConf wCatalogM 3 =
      .ok ([w9Summary], w9After) ∧
    w9After.eraseMetricStats = wCatalogM.eraseMetricStats :=
  ⟨by decide,
   resolve_catalog_frame.1 wPartialM wLocalSpecM wConf wCatalogM 3
     [w9Summary] w9After (by decide)⟩

theorem key_not_seen_of_mem_dedupSummaries :
    ∀ (l : List Summary) (seen : List (String × String)) (s : Summary),
      s ∈ dedupSummaries l seen → summaryKey s ∉ seen := by
  intro l
  induction l with
  | nil => intro seen s h; exact absurd h (by simp [dedupSummaries])
  | cons t rest ih =>
    intro seen s h
    unfold dedupSummaries at h
    split at h
    · exact ih seen s h
    · rcases List.mem_cons.mp h with h1 | h1
      · subst h1
        assumption
      · have := ih _ s h1
        intro hcon
        exact this (List.mem_cons_of_mem _ hcon)

theorem mem_dedupSummaries_iff :
    ∀ (l : List Summary) (seen : List (String × String)) (s : Summary),
      s ∈ dedupSummaries l seen ↔
        (summaryKey s ∉ seen ∧
          l.find? (fun t => summaryKey t == summaryKey s) = some s) := by
  intro l
  induction l with
  | nil =>
    intro seen s
    simp [dedupSummaries]
  | cons t rest ih =>
    intro seen s
    unfold dedupSummaries
    by_cases hk : summaryKey t = summaryKey s
    · rw [List.find?_cons_of_pos _ (by simp [hk])]
      split
      · rename_i hseen
        constructor
        · intro h
          have := key_not_seen_of_mem_dedupSummaries rest seen s h
          rw [← hk] at this
          exact absurd hseen this
        · rintro ⟨hns, hts⟩
          injection hts with hts
          subst hts
          exact absurd hseen (hk ▸ hns)
      · rename_i hseen
        constructor
        · intro h
          rcases List.mem_cons.mp h with h1 | h1
          · subst h1
            exact ⟨hk ▸ hseen, rfl⟩
          · have := key_not_seen_of_mem_dedupSummaries rest _ s h1
            exact absurd (List.mem_cons_self _ _) (hk ▸ this)
        · rintro ⟨hns, hts⟩
          injection hts with hts
          subst hts
          exact List.mem_cons_self _ _
    · rw [List.find?_cons_of_neg _ (by simp [hk])]
      split
      · rename_i hseen
        exact ih seen s
      · rename_i hseen
        rw [List.mem_cons]
        constructor
        · intro h
          rcases h with h1 | h1
          · exact absurd (congrArg summaryKey h1).symm hk
          · have := (ih _ s).mp h1
            refine ⟨fun hc => this.1 (List.mem_cons_of_mem _ hc), this.2⟩
        · rintro ⟨hns, hf⟩
          right
          refine (ih _ s).mpr ⟨?_, hf⟩
          intro hc
          rcases List.mem_cons.mp hc with h2 | h2
          · exact hk h2.symm
          · exact hns h2

theorem countP_dedupSummaries :
    ∀ (l : List Summary) (seen : List (String × String)) (k : String × String),
      (dedupSummaries l seen).countP (fun t => summaryKey t == k) =
        if k ∈ seen then 0
        else if k ∈ l.map summaryKey then 1 else 0 := by
  intro l
  induction l with
  | nil =>
    intro seen k
    simp [dedupSummaries]
  | cons t rest ih =>
    intro seen k
    unfold dedupSummaries
    by_cases hts : summaryKey t ∈ seen
    · rw [if_pos hts]
      rw [ih seen k]
      by_cases hks : k ∈ seen
      · simp [hks]
      · have hne : ¬ k = summaryKey t := fun hh => hks (hh ▸ hts)
        simp [hks, List.mem_cons, hne]
    · rw [if_neg hts]
      rw [List.countP_cons]
      rw [ih (summaryKey t :: seen) k]
      by_cases hkt : k = summaryKey t
      · subst hkt
        simp [hts, List.mem_cons]
      · have h1 : (summaryKey t == k) = false := by
          simp [beq_iff_eq]
          exact fun hh => hkt hh.symm
        rw [h1]
        by_cases hks : k ∈ seen
        · simp [hks, List.mem_cons, hkt]
        · simp [hks, List.mem_cons, hkt]

theorem mem_uniqueSummaries_iff (l : List Summary) (s : Summary) :
    s ∈ uniqueSummaries l ↔
      l.reverse.find? (fun t => summaryKey t == summaryKey s) = some s := by
  unfold uniqueSummaries
  rw [mem_dedupSummaries_iff]
  simp

theorem countP_uniqueSummaries (l : List Summary) (k : String × String)
    (h : k ∈ l.map summaryKey) :
    (uniqueSummaries l).countP (fun t => summaryKey t == k) = 1 := by
  unfold uniqueSummaries
  rw [countP_dedupSummaries,
    if_neg (by simp : ¬ k ∈ ([] : List (String × String))),
    if_pos (show k ∈ l.reverse.map summaryKey by simpa using h)]

theorem resolvePeriod_spec (ms : MetricsSpec) (period : AnalysisPeriod)
    (spec : AnalysisSpec) (conf : ExperimentConfiguration)
    (c : ConfigCollection) (fuel : Nat) (res : List Summary)
    (c2 : ConfigCollection)
    (h : ms.resolvePeriod period spec conf c fuel = .ok (res, c2)) :
    ∃ l, resolveSummaryList (ms.refsFor period) spec conf c fuel =
      .ok (l, c2) ∧ res = uniqueSummaries l := by
  unfold MetricsSpec.resolvePeriod at h
  split at h
  · exact Except.noConfusion h
  · rename_i summaries c' heq
    injection h with h1
    injection h1 with h2 h3
    subst h2
    subst h3
    exact ⟨summaries, heq, rfl⟩

/-- C1: when `MetricsSpec.resolve` succeeds, every period's output is
`uniqueSummaries` of the in-order concatenation of the period's reference
expansions (reverse, then keep the first occurrence of each
`(metric.name, statistic.name)` key); consequently a summary survives
exactly when it is the last element of the expansion carrying its key (the
last occurrence in original order wins), and every key occurring in the
expansion keeps exactly one summary, so distinct statistics of one metric
all survive. -/
theorem metricsSpec_resolve_dedup :
    ∀ (self : MetricsSpec) (spec : AnalysisSpec)
      (conf : ExperimentConfiguration) (configs : ConfigCollection)
      (fuel : Nat) (out : List (AnalysisPeriod × List Summary))
      (cfgF : ConfigCollection),
      MetricsSpec.resolve self spec conf configs fuel = .ok (out, cfgF) →
      ∀ period : AnalysisPeriod,
        ∃ (l : List Summary) (c c' : ConfigCollection),
          resolveSummaryList (self.refsFor period) spec conf c fuel =
            .ok (l, c') ∧
          out.lookup period = some (uniqueSummaries l) ∧
          (∀ s : Summary, s ∈ uniqueSummaries l ↔
            l.reverse.find? (fun t => summaryKey t == summaryKey s) = some s) ∧
          (∀ k : String × String, k ∈ l.map summaryKey →
            (uniqueSummaries l).countP (fun t => summaryKey t == k) = 1) := by
  intro self spec conf configs fuel out cfgF h period
  unfold MetricsSpec.resolve at h
  split at h
  · exact Except.noConfusion h
  · rename_i sDay c1 h1
    split at h
    · exact Except.noConfusion h
    · rename_i sWeek c2 h2
      split at h
      · exact Except.noConfusion h
      · rename_i s28 c3 h3
        split at h
        · exact Except.noConfusion h
        · rename_i sOv c4 h4
          injection h with hp
          injection hp with hout hcfg
          subst hout
          cases period with
          | day =>
            obtain ⟨l, hl, hu⟩ := resolvePeriod_spec self .day spec conf
              configs fuel sDay c1 h1
            exact ⟨l, configs, c1, hl, by subst hu; rfl,
              fun s => mem_uniqueSummaries_iff l s,
              fun k hk => countP_uniqueSummaries l k hk⟩
          | week =>
            obtain ⟨l, hl, hu⟩ := resolvePeriod_spec self .week spec conf
              c1 fuel sWeek c2 h2
            exact ⟨l, c1, c2, hl, by subst hu; rfl,
              fun s => mem_uniqueSummaries_iff l s,
              fun k hk => countP_uniqueSummaries l k hk⟩
          | days28 =>
            obtain ⟨l, hl, hu⟩ := resolvePeriod_spec self .days28 spec conf
              c2 fuel s28 c3 h3
            exact ⟨l, c2, c3, hl, by subst hu; rfl,
              fun s => mem_uniqueSummaries_iff l s,
              fun k hk => countP_uniqueSummaries l k hk⟩
          | overall =>
            obtain ⟨l, hl, hu⟩ := resolvePeriod_spec self .overall spec conf
              c3 fuel sOv c4 h4
            exact ⟨l, c3, c4, hl, by subst hu; rfl,
              fun s => mem_uniqueSummaries_iff l s,
              fun k hk => countP_uniqueSummaries l k hk⟩

/-- The single weekly summary produced when resolving `wSpec` (the two
"spam" references collapse to one). -/
def w1Summary : Summary :=
  { metric := { name := "spam",
                data_source := { name := "eggs",
                                 from_expression := [.lit "england.camelot"] },
                select_expression := "1" },
    statistic := { name := "mean", params := [("num_samples", .int 10)] } }

/-- The per-period output of resolving `wSpec`'s metrics section. -/
def w1Out : List (AnalysisPeriod × List Summary) :=
  [(.day, []), (.week, [w1Summary]), (.days28, []), (.overall, [])]

theorem metricsSpec_resolve_dedup_witness :
    MetricsSpec.resolve wSpec.metrics wSpec wConf {} 3 = .ok (w1Out, {}) ∧
    (∃ (l : List Summary) (c c' : ConfigCollection),
      resolveSummaryList (wSpec.metrics.refsFor .week) wSpec wConf c 3 =
        .ok (l, c') ∧
      w1Out.lookup .week = some (uniqueSummaries l) ∧
      (∀ s : Summary, s ∈ uniqueSummaries l ↔
        l.reverse.find? (fun t => summaryKey t == summaryKey s) = some s) ∧
      (∀ k : String × String, k ∈ l.map summaryKey →
        (uniqueSummaries l).countP (fun t => summaryKey t == k) = 1)) :=
  ⟨by decide,
   metricsSpec_resolve_dedup wSpec.metrics wSpec wConf {} 3 w1Out {}
     (by decide) .week⟩

section DictLemmas

variable {α : Type}

theorem lookup_none_iff_not_mem_keys (k : String) :
    ∀ d : List (String × α),
      List.lookup k d = none ↔ k ∉ d.map Prod.fst := by
  intro d
  induction d with
  | nil => simp [lookup_nil]
  | cons p rest ih =>
    obtain ⟨a, b⟩ := p
    cases hka : k == a
    · have : ¬ k = a := by simpa using hka
      simp [lookup_cons, hka, ih, this]
    · have : k = a := eq_of_beq hka
      simp [lookup_cons, hka, this]

theorem lookup_map_replace_ne (k' k : String) (v : α) (hne : k' ≠ k) :
    ∀ d : List (String × α),
      List.lookup k' (d.map (fun p => if p.1 = k then (p.1, v) else p)) =
        List.lookup k' d := by
  intro d
  induction d with
  | nil => simp [lookup_nil]
  | cons p rest ih =>
    obtain ⟨a, b⟩ := p
    by_cases hak : a = k
    · subst hak
      have hk'a : (k' == a) = false := by simpa using hne
      simp [lookup_cons, hk'a, ih]
    · cases hka : k' == a <;> simp [hak, lookup_cons, hka, ih]

theorem lookup_map_replace_self (k : String) (v : α) :
    ∀ d : List (String × α), (List.lookup k d).isSome = true →
      List.lookup k (d.map (fun p => if p.1 = k then (p.1, v) else p)) =
        some v := by
  intro d
  induction d with
  | nil => intro h; simp [lookup_nil] at h
  | cons p rest ih =>
    obtain ⟨a, b⟩ := p
    intro h
    by_cases hak : a = k
    · subst hak
      simp [lookup_cons]
    · have hka : (k == a) = false := by
        simp
        exact fun hh => hak hh.symm
      rw [lookup_cons, hka] at h
      simp only [List.map_cons, if_neg hak]
      rw [lookup_cons, hka]
      exact ih h

theorem lookup_dictInsert (d : List (String × α)) (k : String) (v : α)
    (k' : String) :
    List.lookup k' (dictInsert d k v) =
      if k' = k then some v else List.lookup k' d := by
  unfold dictInsert
  cases hd : (List.lookup k d).isSome
  · simp only [Bool.false_eq_true, if_false]
    rw [lookup_append]
    by_cases hkk : k' = k
    · subst hkk
      have : List.lookup k' d = none := by
        cases hl : List.lookup k' d
        · rfl
        · rw [hl] at hd; simp at hd
      rw [this, if_pos rfl]
      simp [lookup_cons]
    · rw [if_neg hkk]
      cases hl : List.lookup k' d
      · have hne : (k' == k) = false := by simpa using hkk
        simp [lookup_cons, hne, lookup_nil]
      · rfl
  · simp only [if_true]
    by_cases hkk : k' = k
    · subst hkk
      rw [if_pos rfl]
      exact lookup_map_replace_self k' v d hd
    · rw [if_neg hkk]
      exact lookup_map_replace_ne k' k v hkk d

theorem keys_dictInsert (d : List (String × α)) (k : String) (v : α) :
    (dictInsert d k v).map Prod.fst =
      if (List.lookup k d).isSome then d.map Prod.fst
      else d.map Prod.fst ++ [k] := by
  unfold dictInsert
  cases hd : (List.lookup k d).isSome
  · simp
  · simp only [if_true]
    rw [List.map_map]
    have : ∀ p : String × α,
        (Prod.fst ∘ fun p => if p.1 = k then (p.1, v) else p) p = p.1 := by
      intro p
      by_cases h : p.1 = k <;> simp [h]
    simp [List.map_congr_left (fun p _ => this p)]

theorem nodup_keys_dictInsert (d : List (String × α)) (k : String) (v : α)
    (h : (d.map Prod.fst).Nodup) :
    ((dictInsert d k v).map Prod.fst).Nodup := by
  rw [keys_dictInsert]
  cases hd : (List.lookup k d).isSome
  · simp only [Bool.false_eq_true, if_false]
    have hnm : k ∉ d.map Prod.fst := by
      rw [← lookup_none_iff_not_mem_keys]
      cases hl : List.lookup k d
      · rfl
      · rw [hl] at hd; simp at hd
    simp [List.nodup_append, h, hnm]
  · simpa using h

theorem toDict_nodup_keys (f : α → String) (l : List α) :
    ((toDict f l).map Prod.fst).Nodup := by
  unfold toDict
  suffices h : ∀ acc : List (String × α), (acc.map Prod.fst).Nodup →
      ((l.foldl (fun d c => dictInsert d (f c) c) acc).map Prod.fst).Nodup by
    exact h [] (by simp)
  induction l with
  | nil => intro acc hacc; simpa using hacc
  | cons x rest ih =>
    intro acc hacc
    exact ih (dictInsert acc (f x) x) (nodup_keys_dictInsert acc (f x) x hacc)

theorem lookup_mergeDictInto (upd : α → α → α) :
    ∀ (os d : List (String × α)), (os.map Prod.fst).Nodup →
      ∀ k, List.lookup k (mergeDictInto upd d os) =
        match List.lookup k d, List.lookup k os with
        | some m, some o => some (upd m o)
        | some m, none => some m
        | none, some o => some o
        | none, none => none := by
  intro os
  induction os with
  | nil =>
    intro d _ k
    unfold mergeDictInto
    rw [lookup_nil]
    cases List.lookup k d <;> rfl
  | cons p rest ih =>
    intro d hnd k
    obtain ⟨a, c⟩ := p
    have hrest : (rest.map Prod.fst).Nodup := (List.nodup_cons.mp hnd).2
    have hanotin : a ∉ rest.map Prod.fst := (List.nodup_cons.mp hnd).1
    have hra : List.lookup a rest = none :=
      (lookup_none_iff_not_mem_keys a rest).mpr hanotin
    unfold mergeDictInto
    cases hda : List.lookup a d with
    | none =>
      rw [ih (d ++ [(a, c)]) hrest k, lookup_append]
      by_cases hka : k = a
      · subst hka
        simp [hda, hra, lookup_cons, lookup_nil]
      · have hbka : (k == a) = false := by simpa using hka
        cases hkd : List.lookup k d with
        | none => simp [hkd, lookup_cons, hbka, lookup_nil]
        | some mv => simp [hkd, lookup_cons, hbka, lookup_nil]
    | some mine =>
      rw [ih (dictInsert d a (upd mine c)) hrest k, lookup_dictInsert]
      by_cases hka : k = a
      · subst hka
        simp [hda, hra, lookup_cons]
      · have hbka : (k == a) = false := by simpa using hka
        cases hkd : List.lookup k d with
        | none => simp [hka, hkd, lookup_cons, hbka]
        | some mv => simp [hka, hkd, lookup_cons, hbka]

end DictLemmas

/-- Receiver-side outcome for the C7 counterexample: slug "o" on platform
"p1", with a non-empty spec. -/
def c7OutA : Outcome :=
  { slug := "o", platform := "p1", commit_hash := none,
    spec := { metrics := { weekly := [⟨"a"⟩] } } }

/-- Donor-side outcome with the same slug on a different platform. -/
def c7OutB : Outcome :=
  { slug := "o", platform := "p2", commit_hash := none,
    spec := { metrics := { weekly := [⟨"b"⟩] } } }

/-- C7 counterexample: `ConfigCollection.merge` keys outcomes by slug
alone, not by (slug, platform), and adopts the donor's entry wholesale:
the receiver's outcome ("o", "p1") — whose (slug, platform) key the donor
does not have — is dropped, and the surviving entry's spec is the donor's
unmerged spec. -/
theorem configCollection_merge_outcome_counterexample :
    (ConfigCollection.merge { outcomes := [c7OutA] }
      { outcomes := [c7OutB] }).outcomes = [c7OutB] ∧
    c7OutA ∉ (ConfigCollection.merge { outcomes := [c7OutA] }
      { outcomes := [c7OutB] }).outcomes ∧
    c7OutB.spec.metrics.weekly ≠
      (c7OutA.spec.metrics.merge c7OutB.spec.metrics).weekly := by
  decide

/-- C7 (amended): `ConfigCollection.merge` keys every entry kind by slug
alone.  Through the slug-keyed dicts the code builds: a config, default or
definition slug present in both catalogs keeps the receiver entry with the
two specs merged (donor as donor), a slug present only in the donor is
adopted wholesale, and one present only in the receiver is kept.  An
outcome is in the result iff it is the donor's, or the receiver's with a
slug the donor lacks (donor outcomes replace same-slug receiver outcomes
wholesale, never spec-merged).  A function name resolves to the donor's
entry when present, else the receiver's. -/
theorem configCollection_merge_keying :
    (∀ (A B : ConfigCollection),
      (A.merge B).configs =
        (mergedDict Config.slug mergeConfigEntry A.configs B.configs).map
          Prod.snd ∧
      (A.merge B).defaults =
        (mergedDict DefaultConfig.slug mergeDefaultEntry A.defaults
          B.defaults).map Prod.snd ∧
      (A.merge B).definitions =
        (mergedDict DefinitionConfig.slug mergeDefinitionEntry A.definitions
          B.definitions).map Prod.snd) ∧
    (∀ (α : Type) (slugOf : α → String) (upd : α → α → α)
       (mine others : List α) (k : String),
      List.lookup k (mergedDict slugOf upd mine others) =
        match List.lookup k (toDict slugOf mine),
            List.lookup k (toDict slugOf others) with
        | some m, some o => some (upd m o)
        | some m, none => some m
        | none, some o => some o
        | none, none => none) ∧
    (∀ (A B : ConfigCollection) (o : Outcome),
      o ∈ (A.merge B).outcomes ↔
        (o ∈ B.outcomes ∨
          (o ∈ A.outcomes ∧
            ¬ (B.outcomes.map Outcome.slug).contains o.slug))) ∧
    (∀ (A B : ConfigCollection) (k : String),
      List.lookup k (funcsOf (A.merge B)) =
        match List.lookup k (funcsOf B) with
        | some f => some f
        | none => List.lookup k (funcsOf A)) := by
  refine ⟨fun A B => ⟨rfl, rfl, rfl⟩, ?_, ?_, ?_⟩
  · intro α slugOf upd mine others k
    exact lookup_mergeDictInto upd (toDict slugOf others) (toDict slugOf mine)
      (toDict_nodup_keys slugOf others) k
  · intro A B o
    show o ∈ B.outcomes ++ A.outcomes.filter _ ↔ _
    rw [List.mem_append, List.mem_filter]
    simp
  · intro A B k
    show List.lookup k (mergedFunctions A B) = _
    unfold mergedFunctions
    rw [lookup_append]
    cases hk : List.lookup k (funcsOf B) with
    | some f => rfl
    | none => rw [lookup_filter_unseen (funcsOf B) (funcsOf A) k hk]
